import Mathlib

/-! Expected<T> (tvm/ffi/expected.h)

A shallow embedding of the `Expected<T>` container and of its
`TypeTraits<Expected<T>>` specialisation.

* `Expected<T>` keeps one `Any data_`; the container is a value here, so a
  copy and a move of the same payload are the same value.
* A C++ `throw` is the `Except.error` result, a normal return is `Except.ok`.
* `TypeTraits<T>` and `TypeTraits<Error>` are template arguments in the
  header; here they are explicit arguments `T` and `E`.
-/

namespace tvm.ffi

/-! ## External collaborators -/

/-- Modelled from the spec: the Structured Error of `tvm/ffi/error.h` (not part
of the sources): a value `{kind, message, trace}` inspected by field. The tests
build it as `Error(kind, message, backtrace)`. -/
structure Error where
  kind : String
  message : String
  backtrace : String
deriving DecidableEq, Repr

/-- What a C++ `throw` carries out of the functions of the header.
`RuntimeError msg` is `TVM_FFI_THROW(RuntimeError) << msg`, `InternalError msg`
is a failed `TVM_FFI_ICHECK(cond) << msg`, and `TypeError target` is the failure
of `Any::cast<T>()` where `target` is `TypeTraits<T>::TypeStr()`. -/
inductive Thrown where
  | RuntimeError (message : String)
  | InternalError (message : String)
  | TypeError (target : String)
deriving DecidableEq, Repr

/-- Modelled from the spec: the Per-Type Codec Protocol, `TypeTraits<T>` of
`tvm/ffi/type_traits.h` (not part of the sources), over an erased value slot
type `Slot`: type-check, copy-in, move-in, copy-out, move-out,
best-effort-convert and the two introspection queries. The two `AfterCheck`
extractions have the precondition that `CheckAnyStrict` passed; outside it the
C++ behaviour is unspecified and the value returned here is arbitrary. -/
structure TypeTraits (Slot : Type) (T : Type) where
  CopyToAnyView : T → Slot
  MoveToAny : T → Slot
  CheckAnyStrict : Slot → Bool
  CopyFromAnyViewAfterCheck : Slot → T
  MoveFromAnyAfterCheck : Slot → T
  TryCastFromAnyView : Slot → Option T
  TypeStr : String
  TypeSchema : String

/-- Modelled from the spec: `Any::as<T>()` of `tvm/ffi/any.h` (not part of the
sources): the strict reinterpretation, present exactly when the slot's strict
type-check for `T` succeeds, and then the copy extraction. -/
def Any.as {Slot α : Type} (T : TypeTraits Slot α) (data : Slot) : Option α :=
  if T.CheckAnyStrict data then some (T.CopyFromAnyViewAfterCheck data) else none

/-- Modelled from the spec: `Any::cast<T>()` of `tvm/ffi/any.h` (not part of
the sources): the best-effort conversion of the slot, raising a `TypeError`
when the conversion is absent. -/
def Any.cast {Slot α : Type} (T : TypeTraits Slot α) (data : Slot) : Except Thrown α :=
  match T.TryCastFromAnyView data with
  | some v => Except.ok v
  | none => Except.error (Thrown.TypeError T.TypeStr)

/-! ## class Expected<T> -/

/-- The class `Expected<T>`: its only member is `Any data_`. -/
structure Expected (Slot : Type) (α : Type) where
  data_ : Slot
deriving DecidableEq, Repr

/-- The private constructor `explicit Expected(Any data)`: keeps `data` and
checks `data_.as<T>().has_value() || data_.as<Error>().has_value()`. -/
def Expected.ofAny {Slot α : Type} (T : TypeTraits Slot α) (E : TypeTraits Slot Error)
    (data : Slot) : Except Thrown (Expected Slot α) :=
  if (Any.as T data).isSome || (Any.as E data).isSome then
    Except.ok { data_ := data }
  else
    Except.error (Thrown.InternalError "Expected must contain either T or Error")

/-- The named constructor `Expected::Ok(T value)`: `Expected(Any(std::move(value)))`. -/
def Expected.Ok {Slot α : Type} (T : TypeTraits Slot α) (E : TypeTraits Slot Error)
    (value : α) : Except Thrown (Expected Slot α) :=
  Expected.ofAny T E (T.MoveToAny value)

/-- The named constructor `Expected::Err(Error error)`: `Expected(Any(std::move(error)))`. -/
def Expected.Err {Slot α : Type} (T : TypeTraits Slot α) (E : TypeTraits Slot Error)
    (error : Error) : Except Thrown (Expected Slot α) :=
  Expected.ofAny T E (E.MoveToAny error)

/-- The query `is_ok()`: `data_.as<T>().has_value()`. -/
def Expected.is_ok {Slot α : Type} (T : TypeTraits Slot α) (c : Expected Slot α) : Bool :=
  (Any.as T c.data_).isSome

/-- The query `is_err()`: `data_.as<Error>().has_value()`. -/
def Expected.is_err {Slot α : Type} (E : TypeTraits Slot Error) (c : Expected Slot α) : Bool :=
  (Any.as E c.data_).isSome

/-- The query `has_value()`: an alias of `is_ok()`. -/
def Expected.has_value {Slot α : Type} (T : TypeTraits Slot α) (c : Expected Slot α) : Bool :=
  Expected.is_ok T c

/-- The accessor `value()`: throws `RuntimeError` when `is_err()`, else
`data_.cast<T>()`. -/
def Expected.value {Slot α : Type} (T : TypeTraits Slot α) (E : TypeTraits Slot Error)
    (c : Expected Slot α) : Except Thrown α :=
  if Expected.is_err E c then
    Except.error (Thrown.RuntimeError "Bad expected access: contains error")
  else
    Any.cast T c.data_

/-- The accessor `error()`: `TVM_FFI_ICHECK(is_err())`, then `data_.cast<Error>()`. -/
def Expected.error {Slot α : Type} (E : TypeTraits Slot Error)
    (c : Expected Slot α) : Except Thrown Error :=
  if Expected.is_err E c then
    Any.cast E c.data_
  else
    Except.error (Thrown.InternalError "Expected does not contain an error")

/-- The accessor `value_or(default_value)`: `data_.cast<T>()` when `is_ok()`,
else the default. -/
def Expected.value_or {Slot α : Type} (T : TypeTraits Slot α)
    (c : Expected Slot α) (default_value : α) : Except Thrown α :=
  if Expected.is_ok T c then
    Any.cast T c.data_
  else
    Except.ok default_value

/-! ## struct TypeTraits<Expected<T>> -/

/-- The codec method `TypeTraits<Expected<T>>::CopyToAnyView(src, result)`; the
slot written to `result` is the value returned. -/
def TypeTraitsExpected.CopyToAnyView {Slot α : Type} (T : TypeTraits Slot α)
    (E : TypeTraits Slot Error) (src : Expected Slot α) : Slot :=
  if T.CheckAnyStrict src.data_ then
    T.MoveToAny (T.CopyFromAnyViewAfterCheck src.data_)
  else
    E.MoveToAny (E.CopyFromAnyViewAfterCheck src.data_)

/-- The codec method `TypeTraits<Expected<T>>::MoveToAny(src, result)`. -/
def TypeTraitsExpected.MoveToAny {Slot α : Type} (T : TypeTraits Slot α)
    (E : TypeTraits Slot Error) (src : Expected Slot α) : Slot :=
  if T.CheckAnyStrict src.data_ then
    T.MoveToAny (T.MoveFromAnyAfterCheck src.data_)
  else
    E.MoveToAny (E.MoveFromAnyAfterCheck src.data_)

/-- The codec method `TypeTraits<Expected<T>>::CheckAnyStrict(src)`. -/
def TypeTraitsExpected.CheckAnyStrict {Slot α : Type} (T : TypeTraits Slot α)
    (E : TypeTraits Slot Error) (src : Slot) : Bool :=
  T.CheckAnyStrict src || E.CheckAnyStrict src

/-- The codec method `TypeTraits<Expected<T>>::CopyFromAnyViewAfterCheck(src)`. -/
def TypeTraitsExpected.CopyFromAnyViewAfterCheck {Slot α : Type} (T : TypeTraits Slot α)
    (E : TypeTraits Slot Error) (src : Slot) : Except Thrown (Expected Slot α) :=
  if T.CheckAnyStrict src then
    Expected.Ok T E (T.CopyFromAnyViewAfterCheck src)
  else
    Expected.Err T E (E.CopyFromAnyViewAfterCheck src)

/-- The codec method `TypeTraits<Expected<T>>::MoveFromAnyAfterCheck(src)`. -/
def TypeTraitsExpected.MoveFromAnyAfterCheck {Slot α : Type} (T : TypeTraits Slot α)
    (E : TypeTraits Slot Error) (src : Slot) : Except Thrown (Expected Slot α) :=
  if T.CheckAnyStrict src then
    Expected.Ok T E (T.MoveFromAnyAfterCheck src)
  else
    Expected.Err T E (E.MoveFromAnyAfterCheck src)

/-- The codec method `TypeTraits<Expected<T>>::TryCastFromAnyView(src)`:
`T` first, then `Error`, else `std::nullopt`. -/
def TypeTraitsExpected.TryCastFromAnyView {Slot α : Type} (T : TypeTraits Slot α)
    (E : TypeTraits Slot Error) (src : Slot) : Except Thrown (Option (Expected Slot α)) :=
  match T.TryCastFromAnyView src with
  | some opt => (Expected.Ok T E opt).map some
  | none =>
    match E.TryCastFromAnyView src with
    | some opt_err => (Expected.Err T E opt_err).map some
    | none => Except.ok none

/-- The codec method `TypeTraits<Expected<T>>::TypeStr()`. -/
def TypeTraitsExpected.TypeStr {Slot α : Type} (T : TypeTraits Slot α) : String :=
  "Expected<" ++ T.TypeStr ++ ">"

/-- The codec method `TypeTraits<Expected<T>>::TypeSchema()`; `T.TypeSchema`
stands for `details::TypeSchema<T>::v()`. -/
def TypeTraitsExpected.TypeSchema {Slot α : Type} (T : TypeTraits Slot α) : String :=
  "\x7b\"type\":\"Expected\",\"args\":[" ++ T.TypeSchema ++ "]\x7d"

/-- Modelled from the spec: `Any::cast<Expected<T>>()` of `tvm/ffi/any.h` (not
part of the sources), the cast the round-trip tests use: the best-effort
conversion `TypeTraits<Expected<T>>::TryCastFromAnyView`, raising a `TypeError`
when the conversion is absent. -/
def Any.castExpected {Slot α : Type} (T : TypeTraits Slot α) (E : TypeTraits Slot Error)
    (data : Slot) : Except Thrown (Expected Slot α) :=
  match TypeTraitsExpected.TryCastFromAnyView T E data with
  | Except.ok (some c) => Except.ok c
  | Except.ok none => Except.error (Thrown.TypeError (TypeTraitsExpected.TypeStr T))
  | Except.error t => Except.error t

/-! ## The contract of the codec protocol -/

/-- The strict check accepts what the codec stored (`CheckAnyStrict` is
consistent with `MoveToAny`). -/
def TypeTraits.StoreCheck {Slot α : Type} (T : TypeTraits Slot α) : Prop :=
  ∀ v : α, T.CheckAnyStrict (T.MoveToAny v) = true

/-- Extraction after check gives back the value that was stored. -/
def TypeTraits.StoreLoad {Slot α : Type} (T : TypeTraits Slot α) : Prop :=
  ∀ v : α, T.CopyFromAnyViewAfterCheck (T.MoveToAny v) = v

/-- The best-effort conversion agrees with the strict path wherever the strict
check passes. -/
def TypeTraits.CheckCast {Slot α : Type} (T : TypeTraits Slot α) : Prop :=
  ∀ s : Slot, T.CheckAnyStrict s = true →
    T.TryCastFromAnyView s = some (T.CopyFromAnyViewAfterCheck s)

/-- A slot that `T` accepts and that also is an `Error` slot is stored back
unchanged by the codec of `T`. It holds for every codec of `T` whose strict
check rejects the `Error` slots. -/
def TypeTraits.KeepsError {Slot α : Type} (T : TypeTraits Slot α)
    (E : TypeTraits Slot Error) : Prop :=
  ∀ s : Slot, T.CheckAnyStrict s = true → E.CheckAnyStrict s = true →
    T.MoveToAny (T.CopyFromAnyViewAfterCheck s) = s

/-- The strict check of `T` rejects every slot that the strict check of `Error`
accepts: `T` is structurally disjoint from `Error`. -/
def TypeTraits.RejectsError {Slot α : Type} (T : TypeTraits Slot α)
    (E : TypeTraits Slot Error) : Prop :=
  ∀ s : Slot, E.CheckAnyStrict s = true → T.CheckAnyStrict s = false

/-- The best-effort conversion of `T` does not convert an `Error` slot that the
strict check of `T` rejects. -/
def TypeTraits.CastRejectsError {Slot α : Type} (T : TypeTraits Slot α)
    (E : TypeTraits Slot Error) : Prop :=
  ∀ s : Slot, E.CheckAnyStrict s = true → T.CheckAnyStrict s = false →
    T.TryCastFromAnyView s = none

/-- The slot that the codec of the branch present in `s` produces when it stores
its own extraction of `s`: the codec of `T` when `s` strictly matches `T`, the
codec of `Error` otherwise. -/
def TypeTraitsExpected.reencode {Slot α : Type} (T : TypeTraits Slot α)
    (E : TypeTraits Slot Error) (s : Slot) : Slot :=
  if T.CheckAnyStrict s then
    T.MoveToAny (T.CopyFromAnyViewAfterCheck s)
  else
    E.MoveToAny (E.CopyFromAnyViewAfterCheck s)

/-- Storing what the codec extracts from a slot it stored gives that slot
again. It follows from `StoreLoad` and, unlike it, also holds of a codec that
stores two values as the same slot. -/
def TypeTraits.StoreStable {Slot α : Type} (T : TypeTraits Slot α) : Prop :=
  ∀ v : α, T.MoveToAny (T.CopyFromAnyViewAfterCheck (T.MoveToAny v)) = T.MoveToAny v

/-- A value that the best-effort conversion yields is extracted again from the
slot the codec stores it as. It follows from `StoreLoad`. -/
def TypeTraits.CastLoad {Slot α : Type} (T : TypeTraits Slot α) : Prop :=
  ∀ (s : Slot) (v : α), T.TryCastFromAnyView s = some v →
    T.CopyFromAnyViewAfterCheck (T.MoveToAny v) = v

/-- The containers obtainable through the public interface: the two named
constructors and the three decoding methods of `TypeTraits<Expected<T>>`. -/
inductive Expected.Obtainable {Slot α : Type} (T : TypeTraits Slot α)
    (E : TypeTraits Slot Error) : Expected Slot α → Prop where
  | Ok (value : α) (c : Expected Slot α) :
      Expected.Ok T E value = Except.ok c → Expected.Obtainable T E c
  | Err (error : Error) (c : Expected Slot α) :
      Expected.Err T E error = Except.ok c → Expected.Obtainable T E c
  | CopyFromAnyViewAfterCheck (src : Slot) (c : Expected Slot α) :
      TypeTraitsExpected.CopyFromAnyViewAfterCheck T E src = Except.ok c →
      Expected.Obtainable T E c
  | MoveFromAnyAfterCheck (src : Slot) (c : Expected Slot α) :
      TypeTraitsExpected.MoveFromAnyAfterCheck T E src = Except.ok c →
      Expected.Obtainable T E c
  | TryCastFromAnyView (src : Slot) (c : Expected Slot α) :
      TypeTraitsExpected.TryCastFromAnyView T E src = Except.ok (some c) →
      Expected.Obtainable T E c

/-! ## A concrete slot and the codecs the tests use -/

/-- Modelled from the spec: the Erased Value Slot, `TVMFFIAny` of
`tvm/ffi/c_api.h` (not part of the sources): a tagged union holding exactly one
payload of one registered type. Only the tags the tests of `Expected` reach are
kept: the absent value, an integer, a boolean, a string and an `Error` object.
The field `v_int64` holds a 64-bit integer; it is an `Int` here and nothing
below depends on its bound. -/
inductive TVMFFIAny where
  | kTVMFFINone
  | kTVMFFIInt (v_int64 : Int)
  | kTVMFFIBool (v_bool : Bool)
  | kTVMFFIStr (v_str : String)
  | kTVMFFIError (v_obj : Error)
deriving DecidableEq, Repr

/-- The values of the C++ type `int` (32 bits, two's complement). -/
abbrev CInt : Type := { v : Int // -2147483648 ≤ v ∧ v ≤ 2147483647 }

/-- The conversion `static_cast<int>(int64_t)`: the value modulo `2^32`,
taken in the range of `int`. -/
def CInt.ofInt64 (x : Int) : CInt :=
  ⟨(x + 2147483648) % 4294967296 - 2147483648, by omega⟩

/-- Modelled from the spec: `TypeTraits<int>` of `tvm/ffi/type_traits.h` (not
part of the sources). An `int` is stored widened in an integer slot; the strict
check accepts integer slots only; the best-effort conversion also accepts a
boolean slot (as 0 or 1). -/
def TypeTraitsInt : TypeTraits TVMFFIAny CInt where
  CopyToAnyView := fun src => TVMFFIAny.kTVMFFIInt src.val
  MoveToAny := fun src => TVMFFIAny.kTVMFFIInt src.val
  CheckAnyStrict := fun src =>
    match src with
    | TVMFFIAny.kTVMFFIInt _ => true
    | _ => false
  CopyFromAnyViewAfterCheck := fun src =>
    match src with
    | TVMFFIAny.kTVMFFIInt v => CInt.ofInt64 v
    | _ => CInt.ofInt64 0
  MoveFromAnyAfterCheck := fun src =>
    match src with
    | TVMFFIAny.kTVMFFIInt v => CInt.ofInt64 v
    | _ => CInt.ofInt64 0
  TryCastFromAnyView := fun src =>
    match src with
    | TVMFFIAny.kTVMFFIInt v => some (CInt.ofInt64 v)
    | TVMFFIAny.kTVMFFIBool b => some (CInt.ofInt64 (if b then 1 else 0))
    | _ => none
  TypeStr := "int"
  TypeSchema := "\x7b\"type\":\"int\"\x7d"

/-- Modelled from the spec: `TypeTraits<String>` of `tvm/ffi/string.h` (not part
of the sources): a string is stored in a string slot and only a string slot is
read back as a string. -/
def TypeTraitsString : TypeTraits TVMFFIAny String where
  CopyToAnyView := fun src => TVMFFIAny.kTVMFFIStr src
  MoveToAny := fun src => TVMFFIAny.kTVMFFIStr src
  CheckAnyStrict := fun src =>
    match src with
    | TVMFFIAny.kTVMFFIStr _ => true
    | _ => false
  CopyFromAnyViewAfterCheck := fun src =>
    match src with
    | TVMFFIAny.kTVMFFIStr v => v
    | _ => ""
  MoveFromAnyAfterCheck := fun src =>
    match src with
    | TVMFFIAny.kTVMFFIStr v => v
    | _ => ""
  TryCastFromAnyView := fun src =>
    match src with
    | TVMFFIAny.kTVMFFIStr v => some v
    | _ => none
  TypeStr := "str"
  TypeSchema := "\x7b\"type\":\"str\"\x7d"

/-- Modelled from the spec: `TypeTraits<Error>` of `tvm/ffi/error.h` (not part
of the sources): an `Error` is stored as an `Error` object slot and only such a
slot is read back as an `Error`. -/
def TypeTraitsError : TypeTraits TVMFFIAny Error where
  CopyToAnyView := fun src => TVMFFIAny.kTVMFFIError src
  MoveToAny := fun src => TVMFFIAny.kTVMFFIError src
  CheckAnyStrict := fun src =>
    match src with
    | TVMFFIAny.kTVMFFIError _ => true
    | _ => false
  CopyFromAnyViewAfterCheck := fun src =>
    match src with
    | TVMFFIAny.kTVMFFIError v => v
    | _ => { kind := "", message := "", backtrace := "" }
  MoveFromAnyAfterCheck := fun src =>
    match src with
    | TVMFFIAny.kTVMFFIError v => v
    | _ => { kind := "", message := "", backtrace := "" }
  TryCastFromAnyView := fun src =>
    match src with
    | TVMFFIAny.kTVMFFIError v => some v
    | _ => none
  TypeStr := "ffi.Error"
  TypeSchema := "\x7b\"type\":\"ffi.Error\"\x7d"

/-- Modelled from the spec: `TypeTraits<Optional<T>>` of `tvm/ffi/optional.h`
(not part of the sources): the absent value is the `None` slot, a present value
is stored by the codec of `T` itself; the strict check accepts the `None` slot
and whatever the strict check of `T` accepts. -/
def TypeTraitsOptional {α : Type} (T : TypeTraits TVMFFIAny α) :
    TypeTraits TVMFFIAny (Option α) where
  CopyToAnyView := fun src =>
    match src with
    | some v => T.CopyToAnyView v
    | none => TVMFFIAny.kTVMFFINone
  MoveToAny := fun src =>
    match src with
    | some v => T.MoveToAny v
    | none => TVMFFIAny.kTVMFFINone
  CheckAnyStrict := fun src =>
    match src with
    | TVMFFIAny.kTVMFFINone => true
    | _ => T.CheckAnyStrict src
  CopyFromAnyViewAfterCheck := fun src =>
    match src with
    | TVMFFIAny.kTVMFFINone => none
    | _ => some (T.CopyFromAnyViewAfterCheck src)
  MoveFromAnyAfterCheck := fun src =>
    match src with
    | TVMFFIAny.kTVMFFINone => none
    | _ => some (T.MoveFromAnyAfterCheck src)
  TryCastFromAnyView := fun src =>
    match src with
    | TVMFFIAny.kTVMFFINone => some none
    | _ =>
      match T.TryCastFromAnyView src with
      | some v => some (some v)
      | none => none
  TypeStr := "Optional<" ++ T.TypeStr ++ ">"
  TypeSchema := "\x7b\"type\":\"Optional\",\"args\":[" ++ T.TypeSchema ++ "]\x7d"

/-- The error `Error("RuntimeError", "test error", "")` of the tests. -/
def testError : Error :=
  { kind := "RuntimeError", message := "test error", backtrace := "" }

/-- The `int` value 42 of the tests. -/
def int42 : CInt := ⟨42, by decide⟩

/-- The `int` value 99 of the tests. -/
def int99 : CInt := ⟨99, by decide⟩

/-- The container `Expected<int>` holding the integer slot 42: what
`ExpectedOk(42)` of the tests builds. -/
def okInt42 : Expected TVMFFIAny CInt :=
  { data_ := TVMFFIAny.kTVMFFIInt 42 }

/-- The container `Expected<int>` holding the slot of `testError`: what
`ExpectedErr<int>(Error("RuntimeError", "test error", ""))` of the tests builds. -/
def errInt : Expected TVMFFIAny CInt :=
  { data_ := TVMFFIAny.kTVMFFIError testError }

/-- The container `Expected<Optional<Error>>` holding the slot of `testError`. -/
def errOptionalError : Expected TVMFFIAny (Option Error) :=
  { data_ := TVMFFIAny.kTVMFFIError testError }

/-- The codec of `Optional<Optional<int>>`: `TypeTraits<Optional<T>>` applied
twice. It stores both the absent value and the present value holding an absent
`Optional<int>` as the `None` slot. -/
def TypeTraitsOptionalOptionalInt : TypeTraits TVMFFIAny (Option (Option CInt)) :=
  TypeTraitsOptional (TypeTraitsOptional TypeTraitsInt)

/-- The `Optional<Optional<int>>` value that is present and holds an absent
`Optional<int>`. -/
def someNone : Option (Option CInt) := some none

/-- The container `Expected<Optional<Optional<int>>>` holding the `None` slot. -/
def noneOptionalOptionalInt : Expected TVMFFIAny (Option (Option CInt)) :=
  { data_ := TVMFFIAny.kTVMFFINone }

/-- The container `Expected<Optional<Error>>` holding the `None` slot. -/
def noneOptionalError : Expected TVMFFIAny (Option Error) :=
  { data_ := TVMFFIAny.kTVMFFINone }

/-- The integer slot holding `2^40`, a 64-bit value outside the range of `int`. -/
def wideIntSlot : TVMFFIAny :=
  TVMFFIAny.kTVMFFIInt 1099511627776

/-- The string slot `Any any_str = String("hello")` of the test `TryCastIncompatible`. -/
def helloSlot : TVMFFIAny :=
  TVMFFIAny.kTVMFFIStr "hello"

/-- The `int` value 1. -/
def int1 : CInt := ⟨1, by decide⟩

/-! ## Basic facts about the embedding -/

theorem Any.as_isSome {Slot α : Type} (T : TypeTraits Slot α) (data : Slot) :
    (Any.as T data).isSome = T.CheckAnyStrict data := by
  unfold Any.as
  cases h : T.CheckAnyStrict data <;> simp

theorem Expected.is_ok_eq {Slot α : Type} (T : TypeTraits Slot α) (c : Expected Slot α) :
    Expected.is_ok T c = T.CheckAnyStrict c.data_ := by
  simp [Expected.is_ok, Any.as_isSome]

theorem Expected.is_err_eq {Slot α : Type} (E : TypeTraits Slot Error) (c : Expected Slot α) :
    Expected.is_err E c = E.CheckAnyStrict c.data_ := by
  simp [Expected.is_err, Any.as_isSome]

theorem Expected.ofAny_eq_ok {Slot α : Type} (T : TypeTraits Slot α)
    (E : TypeTraits Slot Error) (data : Slot) (c : Expected Slot α) :
    Expected.ofAny T E data = Except.ok c ↔
      (T.CheckAnyStrict data || E.CheckAnyStrict data) = true ∧ c = { data_ := data } := by
  unfold Expected.ofAny
  rw [Any.as_isSome, Any.as_isSome]
  cases h : (T.CheckAnyStrict data || E.CheckAnyStrict data)
  · simp
  · simp [eq_comm]

theorem Expected.ofAny_of_check {Slot α : Type} (T : TypeTraits Slot α)
    (E : TypeTraits Slot Error) (data : Slot)
    (h : T.CheckAnyStrict data = true ∨ E.CheckAnyStrict data = true) :
    Expected.ofAny T E data = Except.ok { data_ := data } := by
  rw [Expected.ofAny_eq_ok]
  refine ⟨?_, rfl⟩
  rcases h with h | h <;> simp [h]

theorem Except.map_some_eq_ok {ε β : Type} (x : Except ε β) (c : β) :
    x.map some = Except.ok (some c) ↔ x = Except.ok c := by
  cases x <;> simp [Except.map]

/-- Every obtainable container went through the private constructor. -/
theorem Expected.Obtainable.ofAny {Slot α : Type} {T : TypeTraits Slot α}
    {E : TypeTraits Slot Error} {c : Expected Slot α} (h : Expected.Obtainable T E c) :
    ∃ data : Slot, Expected.ofAny T E data = Except.ok c := by
  cases h with
  | Ok value c h => exact ⟨_, h⟩
  | Err error c h => exact ⟨_, h⟩
  | CopyFromAnyViewAfterCheck src c h =>
    unfold TypeTraitsExpected.CopyFromAnyViewAfterCheck at h
    split at h
    · exact ⟨_, h⟩
    · exact ⟨_, h⟩
  | MoveFromAnyAfterCheck src c h =>
    unfold TypeTraitsExpected.MoveFromAnyAfterCheck at h
    split at h
    · exact ⟨_, h⟩
    · exact ⟨_, h⟩
  | TryCastFromAnyView src c h =>
    unfold TypeTraitsExpected.TryCastFromAnyView at h
    split at h
    · exact ⟨_, (Except.map_some_eq_ok _ _).mp h⟩
    · split at h
      · exact ⟨_, (Except.map_some_eq_ok _ _).mp h⟩
      · simp at h

/-- The class invariant: an obtainable container passes one of the two strict checks. -/
theorem Expected.Obtainable.check {Slot α : Type} {T : TypeTraits Slot α}
    {E : TypeTraits Slot Error} {c : Expected Slot α} (h : Expected.Obtainable T E c) :
    T.CheckAnyStrict c.data_ = true ∨ E.CheckAnyStrict c.data_ = true := by
  obtain ⟨data, hd⟩ := h.ofAny
  rw [Expected.ofAny_eq_ok] at hd
  obtain ⟨hchk, rfl⟩ := hd
  simpa using hchk

/-! ## The concrete codecs keep the contract -/

theorem TypeTraitsInt_storeCheck : TypeTraitsInt.StoreCheck := by
  intro v
  rfl

theorem TypeTraitsInt_storeLoad : TypeTraitsInt.StoreLoad := by
  intro v
  apply Subtype.ext
  have h := v.property
  show (v.val + 2147483648) % 4294967296 - 2147483648 = v.val
  omega

theorem TypeTraitsInt_checkCast : TypeTraitsInt.CheckCast := by
  intro s hs
  cases s <;> simp [TypeTraitsInt] at hs ⊢

theorem TypeTraitsInt_rejectsError : TypeTraitsInt.RejectsError TypeTraitsError := by
  intro s hs
  cases s <;> simp [TypeTraitsInt, TypeTraitsError] at hs ⊢

theorem TypeTraitsInt_keepsError : TypeTraitsInt.KeepsError TypeTraitsError := by
  intro s hT hE
  cases s <;> simp [TypeTraitsInt, TypeTraitsError] at hT hE

theorem TypeTraitsError_storeCheck : TypeTraitsError.StoreCheck := by
  intro v
  rfl

theorem TypeTraitsError_storeLoad : TypeTraitsError.StoreLoad := by
  intro v
  rfl

theorem TypeTraitsError_checkCast : TypeTraitsError.CheckCast := by
  intro s hs
  cases s <;> simp [TypeTraitsError] at hs ⊢

theorem keepsError_of_rejectsError {Slot α : Type} {T : TypeTraits Slot α}
    {E : TypeTraits Slot Error} (h : T.RejectsError E) : T.KeepsError E := by
  intro s hT hE
  rw [h s hE] at hT
  cases hT

theorem TypeTraitsOptional_Error_keepsError :
    (TypeTraitsOptional TypeTraitsError).KeepsError TypeTraitsError := by
  intro s hT hE
  cases s <;> simp [TypeTraitsError] at hE
  rfl

theorem TypeTraitsInt_castRejectsError : TypeTraitsInt.CastRejectsError TypeTraitsError := by
  intro s hE _
  cases s <;> simp [TypeTraitsInt, TypeTraitsError] at hE ⊢

theorem TypeTraitsOptional_Int_storeCheck : (TypeTraitsOptional TypeTraitsInt).StoreCheck := by
  intro o
  cases o <;> rfl

theorem TypeTraitsOptional_Int_storeLoad : (TypeTraitsOptional TypeTraitsInt).StoreLoad := by
  intro o
  cases o with
  | none => rfl
  | some v =>
    show some (TypeTraitsInt.CopyFromAnyViewAfterCheck (TypeTraitsInt.MoveToAny v)) = some v
    rw [TypeTraitsInt_storeLoad v]

theorem TypeTraitsOptional_Int_checkCast : (TypeTraitsOptional TypeTraitsInt).CheckCast := by
  intro s hs
  cases s <;> simp [TypeTraitsOptional, TypeTraitsInt] at hs ⊢

theorem TypeTraitsOptional_Int_notError (o : Option CInt) :
    TypeTraitsError.CheckAnyStrict ((TypeTraitsOptional TypeTraitsInt).MoveToAny o) = false := by
  cases o <;> rfl

theorem storeStable_of_storeLoad {Slot α : Type} {T : TypeTraits Slot α}
    (h : T.StoreLoad) : T.StoreStable := by
  intro v
  rw [h v]

theorem castLoad_of_storeLoad {Slot α : Type} {T : TypeTraits Slot α}
    (h : T.StoreLoad) : T.CastLoad := by
  intro s v _
  exact h v

theorem TypeTraitsInt_storeStable : TypeTraitsInt.StoreStable :=
  storeStable_of_storeLoad TypeTraitsInt_storeLoad

theorem TypeTraitsInt_castLoad : TypeTraitsInt.CastLoad :=
  castLoad_of_storeLoad TypeTraitsInt_storeLoad

theorem TypeTraitsOptional_Error_storeCheck :
    (TypeTraitsOptional TypeTraitsError).StoreCheck := by
  intro o
  cases o <;> rfl

theorem TypeTraitsOptional_Error_storeLoad :
    (TypeTraitsOptional TypeTraitsError).StoreLoad := by
  intro o
  cases o <;> rfl

theorem TypeTraitsOptional_Error_checkCast :
    (TypeTraitsOptional TypeTraitsError).CheckCast := by
  intro s hs
  cases s <;> simp [TypeTraitsOptional, TypeTraitsError] at hs ⊢

theorem TypeTraitsOptional_Error_castLoad :
    (TypeTraitsOptional TypeTraitsError).CastLoad :=
  castLoad_of_storeLoad TypeTraitsOptional_Error_storeLoad

theorem TypeTraitsOptionalOptionalInt_storeCheck :
    TypeTraitsOptionalOptionalInt.StoreCheck := by
  intro o
  rcases o with _ | _ | v <;> rfl

theorem TypeTraitsOptionalOptionalInt_checkCast :
    TypeTraitsOptionalOptionalInt.CheckCast := by
  intro s hs
  cases s <;>
    simp [TypeTraitsOptionalOptionalInt, TypeTraitsOptional, TypeTraitsInt] at hs ⊢

theorem TypeTraitsOptionalOptionalInt_storeStable :
    TypeTraitsOptionalOptionalInt.StoreStable := by
  intro o
  rcases o with _ | _ | v
  · rfl
  · rfl
  · show TVMFFIAny.kTVMFFIInt
        (TypeTraitsInt.CopyFromAnyViewAfterCheck (TypeTraitsInt.MoveToAny v)).val
      = TVMFFIAny.kTVMFFIInt v.val
    rw [TypeTraitsInt_storeLoad v]

theorem TypeTraitsOptionalOptionalInt_keepsError :
    TypeTraitsOptionalOptionalInt.KeepsError TypeTraitsError := by
  intro s hT hE
  cases s <;> simp [TypeTraitsOptionalOptionalInt, TypeTraitsOptional, TypeTraitsInt,
    TypeTraitsError] at hT hE

theorem TypeTraitsOptionalOptionalInt_castLoad :
    TypeTraitsOptionalOptionalInt.CastLoad := by
  intro s v h
  cases s with
  | kTVMFFINone =>
    simp [TypeTraitsOptionalOptionalInt, TypeTraitsOptional] at h
    subst h
    rfl
  | kTVMFFIInt x =>
    simp [TypeTraitsOptionalOptionalInt, TypeTraitsOptional, TypeTraitsInt] at h
    subst h
    show some (some (TypeTraitsInt.CopyFromAnyViewAfterCheck
      (TypeTraitsInt.MoveToAny (CInt.ofInt64 x)))) = some (some (CInt.ofInt64 x))
    rw [TypeTraitsInt_storeLoad]
  | kTVMFFIBool b =>
    simp [TypeTraitsOptionalOptionalInt, TypeTraitsOptional, TypeTraitsInt] at h
    subst h
    show some (some (TypeTraitsInt.CopyFromAnyViewAfterCheck
      (TypeTraitsInt.MoveToAny (CInt.ofInt64 (if b = true then 1 else 0)))))
      = some (some (CInt.ofInt64 (if b = true then 1 else 0)))
    rw [TypeTraitsInt_storeLoad]
  | kTVMFFIStr x =>
    simp [TypeTraitsOptionalOptionalInt, TypeTraitsOptional, TypeTraitsInt] at h
  | kTVMFFIError x =>
    simp [TypeTraitsOptionalOptionalInt, TypeTraitsOptional, TypeTraitsInt] at h

/-- The codec of `Optional<Optional<int>>` does not keep `StoreLoad`: the present
value holding an absent `Optional<int>` is stored as the `None` slot and
extracted as the absent value. -/
theorem TypeTraitsOptionalOptionalInt_not_storeLoad :
    ¬ TypeTraitsOptionalOptionalInt.StoreLoad := by
  intro h
  have h' := h someNone
  exact absurd h' (by decide)

/-! ## C1: exclusivity -/

/-- C1 (as stated, refuted): `Optional<Error>` is an Any-compatible success type
other than `Error`, yet the container `Expected<Optional<Error>>::Err(e)` is
built without a failure and answers `true` to both `is_ok()` and `is_err()`. -/
theorem C1_counterexample :
    Expected.Err (TypeTraitsOptional TypeTraitsError) TypeTraitsError testError
        = Except.ok { data_ := TVMFFIAny.kTVMFFIError testError } ∧
      Expected.is_ok (TypeTraitsOptional TypeTraitsError)
        ({ data_ := TVMFFIAny.kTVMFFIError testError } : Expected TVMFFIAny (Option Error))
        = true ∧
      Expected.is_err TypeTraitsError
        ({ data_ := TVMFFIAny.kTVMFFIError testError } : Expected TVMFFIAny (Option Error))
        = true :=
  ⟨rfl, rfl, rfl⟩

/-- C1 (amended): for every success type `T` whose strict check rejects the
slots that `Error`'s strict check accepts, every container obtainable through
the public interface (`Ok`, `Err`, or one of the three decoding methods)
satisfies `is_ok() != is_err()`. -/
theorem C1_exclusivity {Slot α : Type} (T : TypeTraits Slot α) (E : TypeTraits Slot Error)
    (hTE : T.RejectsError E) (c : Expected Slot α) (hc : Expected.Obtainable T E c) :
    Expected.is_ok T c ≠ Expected.is_err E c := by
  rw [Expected.is_ok_eq, Expected.is_err_eq]
  have hinv := hc.check
  cases hE : E.CheckAnyStrict c.data_
  · rcases hinv with h | h
    · simp [h]
    · simp [hE] at h
  · simp [hTE _ hE]

/-- C1 witness: `Expected<int>::Ok(42)`. -/
theorem C1_exclusivity_witness :
    TypeTraitsInt.RejectsError TypeTraitsError ∧
      Expected.Obtainable TypeTraitsInt TypeTraitsError
        { data_ := TVMFFIAny.kTVMFFIInt 42 } ∧
      Expected.is_ok TypeTraitsInt
          ({ data_ := TVMFFIAny.kTVMFFIInt 42 } : Expected TVMFFIAny CInt)
        ≠ Expected.is_err TypeTraitsError
          ({ data_ := TVMFFIAny.kTVMFFIInt 42 } : Expected TVMFFIAny CInt) :=
  ⟨TypeTraitsInt_rejectsError,
   Expected.Obtainable.Ok int42 _ rfl,
   C1_exclusivity TypeTraitsInt TypeTraitsError TypeTraitsInt_rejectsError _
     (Expected.Obtainable.Ok int42 _ rfl)⟩

/-! ## C2: value() -/

/-- C2 (as stated, refuted): `Ok(v).value()` does not return `v` for every
`T`-value `v`. With the success type `Optional<Error>` and
`v = Optional<Error>(e)`, the container `Ok(v)` is built and `Ok(v).value()`
raises `RuntimeError`. With the success type `Optional<Optional<int>>` and `v`
the present value holding an absent `Optional<int>`, `Ok(v)` is built and
`Ok(v).value()` returns the absent value, which is not `v`. -/
theorem C2_counterexample :
    (Expected.Ok (TypeTraitsOptional TypeTraitsError) TypeTraitsError (some testError)
          = Except.ok errOptionalError ∧
        Expected.value (TypeTraitsOptional TypeTraitsError) TypeTraitsError errOptionalError
          = Except.error (Thrown.RuntimeError "Bad expected access: contains error")) ∧
      (Expected.Ok TypeTraitsOptionalOptionalInt TypeTraitsError someNone
          = Except.ok noneOptionalOptionalInt ∧
        Expected.value TypeTraitsOptionalOptionalInt TypeTraitsError noneOptionalOptionalInt
          = Except.ok none ∧
        (none : Option (Option CInt)) ≠ someNone) :=
  ⟨⟨rfl, rfl⟩, ⟨rfl, rfl, by decide⟩⟩

/-- C2 (amended): for every obtainable container `c`, `c.value()` raises if and
only if `c.is_err()` is true, and what it then raises is the `RuntimeError`
"Bad expected access: contains error"; and for every `T`-value `v` that the
codec of `T` stores as a slot which the strict check of `Error` rejects and from
which the extraction by `T` returns `v` again, `Expected<T>::Ok(v)` is built and
`Ok(v).value()` returns `v` without raising. The codec of `T` is assumed to
accept, in its strict check, the slot it stored (`StoreCheck`) and to convert a
slot that passes the strict check as the strict extraction does (`CheckCast`). -/
theorem C2_value {Slot α : Type} (T : TypeTraits Slot α) (E : TypeTraits Slot Error)
    (hsc : T.StoreCheck) (hcc : T.CheckCast) :
    (∀ c : Expected Slot α, Expected.Obtainable T E c →
        ((∃ t : Thrown, Expected.value T E c = Except.error t)
            ↔ Expected.is_err E c = true) ∧
          (Expected.is_err E c = true →
            Expected.value T E c
              = Except.error (Thrown.RuntimeError "Bad expected access: contains error"))) ∧
      (∀ v : α, E.CheckAnyStrict (T.MoveToAny v) = false →
        T.CopyFromAnyViewAfterCheck (T.MoveToAny v) = v →
        Expected.Ok T E v = Except.ok { data_ := T.MoveToAny v } ∧
          Expected.value T E { data_ := T.MoveToAny v } = Except.ok v) := by
  constructor
  · intro c hc
    have hraise : Expected.is_err E c = true →
        Expected.value T E c
          = Except.error (Thrown.RuntimeError "Bad expected access: contains error") := by
      intro h
      simp [Expected.value, h]
    refine ⟨⟨?_, fun h => ⟨_, hraise h⟩⟩, hraise⟩
    rintro ⟨t, ht⟩
    by_contra hne
    have hE : E.CheckAnyStrict c.data_ = false := by
      rw [Expected.is_err_eq] at hne
      simpa using hne
    have hT : T.CheckAnyStrict c.data_ = true := by
      rcases hc.check with h | h
      · exact h
      · simp [hE] at h
    have hise : Expected.is_err E c = false := by rw [Expected.is_err_eq]; exact hE
    simp [Expected.value, hise, Any.cast, hcc _ hT] at ht
  · intro v hv hl
    have hise : Expected.is_err E ({ data_ := T.MoveToAny v } : Expected Slot α) = false := by
      rw [Expected.is_err_eq]; exact hv
    refine ⟨Expected.ofAny_of_check T E _ (Or.inl (hsc v)), ?_⟩
    simp [Expected.value, hise, Any.cast, hcc _ (hsc v), hl]

/-- C2 witness: `Expected<int>::Err(e).value()` raises and
`Expected<int>::Ok(42).value()` returns 42; with the success type
`Optional<Error>`, `value()` of the container `Err(e)` raises as well. -/
theorem C2_value_witness :
    TypeTraitsInt.StoreCheck ∧ TypeTraitsInt.CheckCast ∧
      Expected.Obtainable TypeTraitsInt TypeTraitsError errInt ∧
      ((∃ t : Thrown, Expected.value TypeTraitsInt TypeTraitsError errInt = Except.error t)
        ↔ Expected.is_err TypeTraitsError errInt = true) ∧
      TypeTraitsError.CheckAnyStrict (TypeTraitsInt.MoveToAny int42) = false ∧
      TypeTraitsInt.CopyFromAnyViewAfterCheck (TypeTraitsInt.MoveToAny int42) = int42 ∧
      (Expected.Ok TypeTraitsInt TypeTraitsError int42
          = Except.ok { data_ := TypeTraitsInt.MoveToAny int42 } ∧
        Expected.value TypeTraitsInt TypeTraitsError { data_ := TypeTraitsInt.MoveToAny int42 }
          = Except.ok int42) ∧
      Expected.Obtainable (TypeTraitsOptional TypeTraitsError) TypeTraitsError
        errOptionalError ∧
      Expected.value (TypeTraitsOptional TypeTraitsError) TypeTraitsError errOptionalError
        = Except.error (Thrown.RuntimeError "Bad expected access: contains error") :=
  ⟨TypeTraitsInt_storeCheck, TypeTraitsInt_checkCast,
   Expected.Obtainable.Err testError _ rfl,
   ((C2_value TypeTraitsInt TypeTraitsError TypeTraitsInt_storeCheck
      TypeTraitsInt_checkCast).1 errInt (Expected.Obtainable.Err testError _ rfl)).1,
   rfl, TypeTraitsInt_storeLoad int42,
   (C2_value TypeTraitsInt TypeTraitsError TypeTraitsInt_storeCheck
      TypeTraitsInt_checkCast).2 int42 rfl (TypeTraitsInt_storeLoad int42),
   Expected.Obtainable.Err testError _ rfl,
   ((C2_value (TypeTraitsOptional TypeTraitsError) TypeTraitsError
      TypeTraitsOptional_Error_storeCheck TypeTraitsOptional_Error_checkCast).1
      errOptionalError (Expected.Obtainable.Err testError _ rfl)).2 rfl⟩

/-! ## C3: value_or -/

/-- C3 (as stated, refuted): `value_or` does not select as stated for every `T`.
With the success type `Optional<Error>`, the container `Err(e)` is built and
`Err(e).value_or(d)` with the absent default `d` returns the stored error as a
present value, not `d`. With the success type `Optional<Optional<int>>` and `v`
the present value holding an absent `Optional<int>`, `Ok(v)` is built and
`Ok(v).value_or(d)` returns the absent value, which is not `v`. -/
theorem C3_counterexample :
    (Expected.Err (TypeTraitsOptional TypeTraitsError) TypeTraitsError testError
          = Except.ok errOptionalError ∧
        Expected.value_or (TypeTraitsOptional TypeTraitsError) errOptionalError none
          = Except.ok (some testError) ∧
        (some testError : Option Error) ≠ none) ∧
      (Expected.Ok TypeTraitsOptionalOptionalInt TypeTraitsError someNone
          = Except.ok noneOptionalOptionalInt ∧
        Expected.value_or TypeTraitsOptionalOptionalInt noneOptionalOptionalInt
            (some (some int99))
          = Except.ok none ∧
        (none : Option (Option CInt)) ≠ someNone) :=
  ⟨⟨rfl, rfl, by simp⟩, ⟨rfl, rfl, by decide⟩⟩

/-- C3 (amended): `value_or` never raises, on any container `c` and default
`d`, and it selects by branch: for every error `e` whose slot the strict check
of `T` rejects and every default `d`, `Expected<T>::Err(e)` is built and
`Err(e).value_or(d) == d`; for every `T`-value `v` that the extraction by `T`
returns again from the slot the codec of `T` stores it as, and every default
`d`, `Expected<T>::Ok(v)` is built and `Ok(v).value_or(d) == v`. Each codec is
assumed to accept, in its strict check, the slot it stored (`StoreCheck`), and
the codec of `T` to convert a slot that passes the strict check as the strict
extraction does (`CheckCast`). -/
theorem C3_value_or {Slot α : Type} (T : TypeTraits Slot α) (E : TypeTraits Slot Error)
    (hsc : T.StoreCheck) (hcc : T.CheckCast) (hE : E.StoreCheck) :
    (∀ (c : Expected Slot α) (d : α), ∃ x : α, Expected.value_or T c d = Except.ok x) ∧
      (∀ (e : Error) (d : α), T.CheckAnyStrict (E.MoveToAny e) = false →
        Expected.Err T E e = Except.ok { data_ := E.MoveToAny e } ∧
          Expected.value_or T { data_ := E.MoveToAny e } d = Except.ok d) ∧
      (∀ v d : α, T.CopyFromAnyViewAfterCheck (T.MoveToAny v) = v →
        Expected.Ok T E v = Except.ok { data_ := T.MoveToAny v } ∧
          Expected.value_or T { data_ := T.MoveToAny v } d = Except.ok v) := by
  refine ⟨?_, ?_, ?_⟩
  · intro c d
    cases h : Expected.is_ok T c
    · exact ⟨d, by simp [Expected.value_or, h]⟩
    · have hT : T.CheckAnyStrict c.data_ = true := by rw [← Expected.is_ok_eq]; exact h
      exact ⟨T.CopyFromAnyViewAfterCheck c.data_,
        by simp [Expected.value_or, h, Any.cast, hcc _ hT]⟩
  · intro e d he
    refine ⟨Expected.ofAny_of_check T E _ (Or.inr (hE e)), ?_⟩
    have h : Expected.is_ok T ({ data_ := E.MoveToAny e } : Expected Slot α) = false := by
      rw [Expected.is_ok_eq]; exact he
    simp [Expected.value_or, h]
  · intro v d hl
    refine ⟨Expected.ofAny_of_check T E _ (Or.inl (hsc v)), ?_⟩
    have h : Expected.is_ok T ({ data_ := T.MoveToAny v } : Expected Slot α) = true := by
      rw [Expected.is_ok_eq]; exact hsc v
    simp [Expected.value_or, h, Any.cast, hcc _ (hsc v), hl]

/-- C3 witness: `Expected<int>::Err(e).value_or(99)` is 99 and
`Expected<int>::Ok(42).value_or(99)` is 42; with the success type
`Optional<Error>`, `value_or` returns on the container `Err(e)` and
`Ok(Optional<Error>(e)).value_or(d)` is `Optional<Error>(e)`. -/
theorem C3_value_or_witness :
    TypeTraitsInt.StoreCheck ∧ TypeTraitsInt.CheckCast ∧ TypeTraitsError.StoreCheck ∧
      (∃ x : CInt, Expected.value_or TypeTraitsInt errInt int99 = Except.ok x) ∧
      TypeTraitsInt.CheckAnyStrict (TypeTraitsError.MoveToAny testError) = false ∧
      (Expected.Err TypeTraitsInt TypeTraitsError testError
          = Except.ok { data_ := TypeTraitsError.MoveToAny testError } ∧
        Expected.value_or TypeTraitsInt { data_ := TypeTraitsError.MoveToAny testError } int99
          = Except.ok int99) ∧
      TypeTraitsInt.CopyFromAnyViewAfterCheck (TypeTraitsInt.MoveToAny int42) = int42 ∧
      (Expected.Ok TypeTraitsInt TypeTraitsError int42
          = Except.ok { data_ := TypeTraitsInt.MoveToAny int42 } ∧
        Expected.value_or TypeTraitsInt { data_ := TypeTraitsInt.MoveToAny int42 } int99
          = Except.ok int42) ∧
      (∃ x : Option Error,
        Expected.value_or (TypeTraitsOptional TypeTraitsError) errOptionalError none
          = Except.ok x) ∧
      (Expected.Ok (TypeTraitsOptional TypeTraitsError) TypeTraitsError (some testError)
          = Except.ok { data_ := (TypeTraitsOptional TypeTraitsError).MoveToAny (some testError) } ∧
        Expected.value_or (TypeTraitsOptional TypeTraitsError)
            { data_ := (TypeTraitsOptional TypeTraitsError).MoveToAny (some testError) } none
          = Except.ok (some testError)) :=
  ⟨TypeTraitsInt_storeCheck, TypeTraitsInt_checkCast, TypeTraitsError_storeCheck,
   (C3_value_or TypeTraitsInt TypeTraitsError TypeTraitsInt_storeCheck
      TypeTraitsInt_checkCast TypeTraitsError_storeCheck).1 errInt int99,
   rfl,
   (C3_value_or TypeTraitsInt TypeTraitsError TypeTraitsInt_storeCheck
      TypeTraitsInt_checkCast TypeTraitsError_storeCheck).2.1 testError int99 rfl,
   TypeTraitsInt_storeLoad int42,
   (C3_value_or TypeTraitsInt TypeTraitsError TypeTraitsInt_storeCheck
      TypeTraitsInt_checkCast TypeTraitsError_storeCheck).2.2 int42 int99
      (TypeTraitsInt_storeLoad int42),
   (C3_value_or (TypeTraitsOptional TypeTraitsError) TypeTraitsError
      TypeTraitsOptional_Error_storeCheck TypeTraitsOptional_Error_checkCast
      TypeTraitsError_storeCheck).1 errOptionalError none,
   (C3_value_or (TypeTraitsOptional TypeTraitsError) TypeTraitsError
      TypeTraitsOptional_Error_storeCheck TypeTraitsOptional_Error_checkCast
      TypeTraitsError_storeCheck).2.2 (some testError) none rfl⟩

/-! ## C4: the error constructor -/

/-- C4 (as stated, refuted): with the success type `Optional<Error>`, the
container `c = Err(e)` is built without a failure, but `c.is_ok()` and
`c.has_value()` are `true`, not `false`. -/
theorem C4_counterexample :
    Expected.Err (TypeTraitsOptional TypeTraitsError) TypeTraitsError testError
        = Except.ok errOptionalError ∧
      Expected.is_ok (TypeTraitsOptional TypeTraitsError) errOptionalError = true ∧
      Expected.has_value (TypeTraitsOptional TypeTraitsError) errOptionalError = true :=
  ⟨rfl, rfl, rfl⟩

/-- C4 (amended): for every success type `T` and every `Error` `e` whose slot the
strict check of `T` rejects, `c = Expected<T>::Err(e)` is built and satisfies
`c.is_err() == true`, `c.is_ok() == false`, `c.has_value() == false`, and
`c.error()` returns `e` itself (so the same kind and message). The codec of
`Error` is assumed to keep its contract (`StoreCheck`, `StoreLoad`,
`CheckCast`). -/
theorem C4_Err {Slot α : Type} (T : TypeTraits Slot α) (E : TypeTraits Slot Error)
    (hsc : E.StoreCheck) (hsl : E.StoreLoad) (hcc : E.CheckCast)
    (e : Error) (he : T.CheckAnyStrict (E.MoveToAny e) = false) :
    Expected.Err T E e = Except.ok { data_ := E.MoveToAny e } ∧
      Expected.is_err E ({ data_ := E.MoveToAny e } : Expected Slot α) = true ∧
      Expected.is_ok T ({ data_ := E.MoveToAny e } : Expected Slot α) = false ∧
      Expected.has_value T ({ data_ := E.MoveToAny e } : Expected Slot α) = false ∧
      Expected.error E ({ data_ := E.MoveToAny e } : Expected Slot α) = Except.ok e := by
  have hie : Expected.is_err E ({ data_ := E.MoveToAny e } : Expected Slot α) = true := by
    rw [Expected.is_err_eq]; exact hsc e
  have hio : Expected.is_ok T ({ data_ := E.MoveToAny e } : Expected Slot α) = false := by
    rw [Expected.is_ok_eq]; exact he
  refine ⟨Expected.ofAny_of_check T E _ (Or.inr (hsc e)), hie, hio, ?_, ?_⟩
  · simpa [Expected.has_value] using hio
  · simp [Expected.error, hie, Any.cast, hcc _ (hsc e), hsl e]

/-- C4 witness: `ExpectedErr<int>(Error("RuntimeError", "test error", ""))`. -/
theorem C4_Err_witness :
    TypeTraitsError.StoreCheck ∧ TypeTraitsError.StoreLoad ∧ TypeTraitsError.CheckCast ∧
      TypeTraitsInt.CheckAnyStrict (TypeTraitsError.MoveToAny testError) = false ∧
      (Expected.Err TypeTraitsInt TypeTraitsError testError
          = Except.ok { data_ := TypeTraitsError.MoveToAny testError } ∧
        Expected.is_err TypeTraitsError
          ({ data_ := TypeTraitsError.MoveToAny testError } : Expected TVMFFIAny CInt) = true ∧
        Expected.is_ok TypeTraitsInt
          ({ data_ := TypeTraitsError.MoveToAny testError } : Expected TVMFFIAny CInt) = false ∧
        Expected.has_value TypeTraitsInt
          ({ data_ := TypeTraitsError.MoveToAny testError } : Expected TVMFFIAny CInt) = false ∧
        Expected.error TypeTraitsError
          ({ data_ := TypeTraitsError.MoveToAny testError } : Expected TVMFFIAny CInt)
          = Except.ok testError) :=
  ⟨TypeTraitsError_storeCheck, TypeTraitsError_storeLoad, TypeTraitsError_checkCast, rfl,
   C4_Err TypeTraitsInt TypeTraitsError TypeTraitsError_storeCheck TypeTraitsError_storeLoad
     TypeTraitsError_checkCast testError rfl⟩

/-! ## C5: the named constructors always succeed -/

/-- C5: both named constructors always succeed: for every `T`-value `v`,
`Expected<T>::Ok(v)` returns the container holding the slot of `v`, and for
every `Error` `e`, `Expected<T>::Err(e)` returns the container holding the slot
of `e`; neither trips the check "Expected must contain either T or Error" of
the private constructor. Each codec is assumed to accept, in its strict check,
the slot it stored (`StoreCheck`). -/
theorem C5_constructors_succeed {Slot α : Type} (T : TypeTraits Slot α)
    (E : TypeTraits Slot Error) (hT : T.StoreCheck) (hE : E.StoreCheck)
    (v : α) (e : Error) :
    (Expected.Ok T E v = Except.ok { data_ := T.MoveToAny v } ∧
        Expected.Ok T E v
          ≠ Except.error (Thrown.InternalError "Expected must contain either T or Error")) ∧
      (Expected.Err T E e = Except.ok { data_ := E.MoveToAny e } ∧
        Expected.Err T E e
          ≠ Except.error (Thrown.InternalError "Expected must contain either T or Error")) := by
  have hOk : Expected.Ok T E v = Except.ok { data_ := T.MoveToAny v } :=
    Expected.ofAny_of_check T E _ (Or.inl (hT v))
  have hErr : Expected.Err T E e = Except.ok { data_ := E.MoveToAny e } :=
    Expected.ofAny_of_check T E _ (Or.inr (hE e))
  refine ⟨⟨hOk, ?_⟩, ⟨hErr, ?_⟩⟩
  · rw [hOk]; simp
  · rw [hErr]; simp

/-- C5 witness: `Expected<int>::Ok(42)` and `Expected<int>::Err(e)`. -/
theorem C5_constructors_succeed_witness :
    TypeTraitsInt.StoreCheck ∧ TypeTraitsError.StoreCheck ∧
      ((Expected.Ok TypeTraitsInt TypeTraitsError int42
            = Except.ok { data_ := TypeTraitsInt.MoveToAny int42 } ∧
          Expected.Ok TypeTraitsInt TypeTraitsError int42
            ≠ Except.error (Thrown.InternalError "Expected must contain either T or Error")) ∧
        (Expected.Err TypeTraitsInt TypeTraitsError testError
            = Except.ok { data_ := TypeTraitsError.MoveToAny testError } ∧
          Expected.Err TypeTraitsInt TypeTraitsError testError
            ≠ Except.error (Thrown.InternalError "Expected must contain either T or Error"))) :=
  ⟨TypeTraitsInt_storeCheck, TypeTraitsError_storeCheck,
   C5_constructors_succeed TypeTraitsInt TypeTraitsError TypeTraitsInt_storeCheck
     TypeTraitsError_storeCheck int42 testError⟩

/-! ## C6, C7: round trips through erasure -/

/-- C6 (as stated, refuted): the success round trip does not return `v` for
every `T`-value `v`. With the success type `Optional<Error>` and
`v = Optional<Error>(e)`, `Ok(v)` is built, it is stored as the slot of `e`, the
slot is read back as a container `r` with `r.is_ok() == true`, but `r.value()`
raises `RuntimeError`. With the success type `Optional<Optional<int>>` and `v`
the present value holding an absent `Optional<int>`, `Ok(v)` is built, it is
stored as the `None` slot, the slot is read back as a container `r` with
`r.is_ok() == true`, but `r.value()` is the absent value, which is not `v`. -/
theorem C6_counterexample :
    (Expected.Ok (TypeTraitsOptional TypeTraitsError) TypeTraitsError (some testError)
          = Except.ok errOptionalError ∧
        TypeTraitsExpected.CopyToAnyView (TypeTraitsOptional TypeTraitsError) TypeTraitsError
            errOptionalError
          = TVMFFIAny.kTVMFFIError testError ∧
        TypeTraitsExpected.CopyFromAnyViewAfterCheck (TypeTraitsOptional TypeTraitsError)
            TypeTraitsError (TVMFFIAny.kTVMFFIError testError)
          = Except.ok errOptionalError ∧
        Expected.is_ok (TypeTraitsOptional TypeTraitsError) errOptionalError = true ∧
        Expected.value (TypeTraitsOptional TypeTraitsError) TypeTraitsError errOptionalError
          = Except.error (Thrown.RuntimeError "Bad expected access: contains error")) ∧
      (Expected.Ok TypeTraitsOptionalOptionalInt TypeTraitsError someNone
          = Except.ok noneOptionalOptionalInt ∧
        TypeTraitsExpected.CopyToAnyView TypeTraitsOptionalOptionalInt TypeTraitsError
            noneOptionalOptionalInt
          = TVMFFIAny.kTVMFFINone ∧
        TypeTraitsExpected.CopyFromAnyViewAfterCheck TypeTraitsOptionalOptionalInt
            TypeTraitsError TVMFFIAny.kTVMFFINone
          = Except.ok noneOptionalOptionalInt ∧
        Expected.is_ok TypeTraitsOptionalOptionalInt noneOptionalOptionalInt = true ∧
        Expected.value TypeTraitsOptionalOptionalInt TypeTraitsError noneOptionalOptionalInt
          = Except.ok none ∧
        (none : Option (Option CInt)) ≠ someNone) :=
  ⟨⟨rfl, rfl, rfl, rfl, rfl⟩, ⟨rfl, rfl, rfl, rfl, rfl, by decide⟩⟩

/-- C6 (amended): success round trip through erasure: for every `T`-value `v`
that the codec of `T` stores as a slot which the strict check of `Error` rejects
and from which the extraction by `T` returns `v` again,
`c = Expected<T>::Ok(v)` is built, and reading the slot `CopyToAnyView(c)` back
with `CopyFromAnyViewAfterCheck` yields, without raising, a container `r` with
`r.is_ok() == true` and `r.value() == v`. The codec of `T` is assumed to accept,
in its strict check, the slot it stored (`StoreCheck`) and to convert a slot
that passes the strict check as the strict extraction does (`CheckCast`). -/
theorem C6_success_round_trip {Slot α : Type} (T : TypeTraits Slot α)
    (E : TypeTraits Slot Error) (hsc : T.StoreCheck) (hcc : T.CheckCast)
    (v : α) (hv : E.CheckAnyStrict (T.MoveToAny v) = false)
    (hl : T.CopyFromAnyViewAfterCheck (T.MoveToAny v) = v) :
    Expected.Ok T E v = Except.ok { data_ := T.MoveToAny v } ∧
      TypeTraitsExpected.CopyFromAnyViewAfterCheck T E
          (TypeTraitsExpected.CopyToAnyView T E { data_ := T.MoveToAny v })
        = Except.ok { data_ := T.MoveToAny v } ∧
      Expected.is_ok T ({ data_ := T.MoveToAny v } : Expected Slot α) = true ∧
      Expected.value T E { data_ := T.MoveToAny v } = Except.ok v := by
  have hOk : Expected.Ok T E v = Except.ok { data_ := T.MoveToAny v } :=
    Expected.ofAny_of_check T E _ (Or.inl (hsc v))
  have hstore : TypeTraitsExpected.CopyToAnyView T E { data_ := T.MoveToAny v }
      = T.MoveToAny v := by
    simp [TypeTraitsExpected.CopyToAnyView, hsc v, hl]
  have hise : Expected.is_err E ({ data_ := T.MoveToAny v } : Expected Slot α) = false := by
    rw [Expected.is_err_eq]; exact hv
  refine ⟨hOk, ?_, ?_, ?_⟩
  · rw [hstore]
    simp [TypeTraitsExpected.CopyFromAnyViewAfterCheck, hsc v, hl, hOk]
  · rw [Expected.is_ok_eq]; exact hsc v
  · simp [Expected.value, hise, Any.cast, hcc _ (hsc v), hl]

/-- C6 witness: the round trip of `Expected<int>::Ok(42)` (test `TypeTraitsRoundtrip`). -/
theorem C6_success_round_trip_witness :
    TypeTraitsInt.StoreCheck ∧ TypeTraitsInt.CheckCast ∧
      TypeTraitsError.CheckAnyStrict (TypeTraitsInt.MoveToAny int42) = false ∧
      TypeTraitsInt.CopyFromAnyViewAfterCheck (TypeTraitsInt.MoveToAny int42) = int42 ∧
      (Expected.Ok TypeTraitsInt TypeTraitsError int42
          = Except.ok { data_ := TypeTraitsInt.MoveToAny int42 } ∧
        TypeTraitsExpected.CopyFromAnyViewAfterCheck TypeTraitsInt TypeTraitsError
            (TypeTraitsExpected.CopyToAnyView TypeTraitsInt TypeTraitsError
              { data_ := TypeTraitsInt.MoveToAny int42 })
          = Except.ok { data_ := TypeTraitsInt.MoveToAny int42 } ∧
        Expected.is_ok TypeTraitsInt
          ({ data_ := TypeTraitsInt.MoveToAny int42 } : Expected TVMFFIAny CInt) = true ∧
        Expected.value TypeTraitsInt TypeTraitsError { data_ := TypeTraitsInt.MoveToAny int42 }
          = Except.ok int42) :=
  ⟨TypeTraitsInt_storeCheck, TypeTraitsInt_checkCast, rfl, TypeTraitsInt_storeLoad int42,
   C6_success_round_trip TypeTraitsInt TypeTraitsError TypeTraitsInt_storeCheck
     TypeTraitsInt_checkCast int42 rfl (TypeTraitsInt_storeLoad int42)⟩

/-- C7: error round trip through erasure: for every success type `T` and every
`Error` `e`, `c = Expected<T>::Err(e)` is built, the slot `CopyToAnyView(c)` is
the slot of `e`, and reading it back with `CopyFromAnyViewAfterCheck` yields,
without raising, a container `r` with `r.is_err() == true` whose `r.error()` is
`e` itself (so the same kind and the same message). The codec of `Error` is
assumed to keep its contract (`StoreCheck`, `StoreLoad`, `CheckCast`), and the
codec of `T` to store back unchanged an `Error` slot that its strict check
accepts (`KeepsError`, which holds of every `T` disjoint from `Error`). -/
theorem C7_error_round_trip {Slot α : Type} (T : TypeTraits Slot α)
    (E : TypeTraits Slot Error) (hsc : E.StoreCheck) (hsl : E.StoreLoad) (hcc : E.CheckCast)
    (hk : T.KeepsError E) (e : Error) :
    Expected.Err T E e = Except.ok { data_ := E.MoveToAny e } ∧
      TypeTraitsExpected.CopyFromAnyViewAfterCheck T E
          (TypeTraitsExpected.CopyToAnyView T E { data_ := E.MoveToAny e })
        = Except.ok { data_ := E.MoveToAny e } ∧
      Expected.is_err E ({ data_ := E.MoveToAny e } : Expected Slot α) = true ∧
      Expected.error E ({ data_ := E.MoveToAny e } : Expected Slot α) = Except.ok e := by
  have hErr : Expected.Err T E e = Except.ok { data_ := E.MoveToAny e } :=
    Expected.ofAny_of_check T E _ (Or.inr (hsc e))
  have hie : Expected.is_err E ({ data_ := E.MoveToAny e } : Expected Slot α) = true := by
    rw [Expected.is_err_eq]; exact hsc e
  have hstore : TypeTraitsExpected.CopyToAnyView T E { data_ := E.MoveToAny e }
      = E.MoveToAny e := by
    cases hT : T.CheckAnyStrict (E.MoveToAny e)
    · simp [TypeTraitsExpected.CopyToAnyView, hT, hsl e]
    · simp [TypeTraitsExpected.CopyToAnyView, hT, hk _ hT (hsc e)]
  refine ⟨hErr, ?_, hie, ?_⟩
  · rw [hstore]
    cases hT : T.CheckAnyStrict (E.MoveToAny e)
    · simp [TypeTraitsExpected.CopyFromAnyViewAfterCheck, hT, hsl e, hErr]
    · simp only [TypeTraitsExpected.CopyFromAnyViewAfterCheck, hT, if_true, Expected.Ok]
      rw [hk _ hT (hsc e)]
      exact hErr
  · simp [Expected.error, hie, Any.cast, hcc _ (hsc e), hsl e]

/-- C7 witness: the round trip of `Expected<Optional<Error>>::Err(e)`, a success
type whose strict check accepts the `Error` slots. -/
theorem C7_error_round_trip_witness :
    TypeTraitsError.StoreCheck ∧ TypeTraitsError.StoreLoad ∧ TypeTraitsError.CheckCast ∧
      (TypeTraitsOptional TypeTraitsError).KeepsError TypeTraitsError ∧
      (Expected.Err (TypeTraitsOptional TypeTraitsError) TypeTraitsError testError
          = Except.ok { data_ := TypeTraitsError.MoveToAny testError } ∧
        TypeTraitsExpected.CopyFromAnyViewAfterCheck (TypeTraitsOptional TypeTraitsError)
            TypeTraitsError
            (TypeTraitsExpected.CopyToAnyView (TypeTraitsOptional TypeTraitsError)
              TypeTraitsError { data_ := TypeTraitsError.MoveToAny testError })
          = Except.ok { data_ := TypeTraitsError.MoveToAny testError } ∧
        Expected.is_err TypeTraitsError
          ({ data_ := TypeTraitsError.MoveToAny testError } : Expected TVMFFIAny (Option Error))
          = true ∧
        Expected.error TypeTraitsError
          ({ data_ := TypeTraitsError.MoveToAny testError } : Expected TVMFFIAny (Option Error))
          = Except.ok testError) :=
  ⟨TypeTraitsError_storeCheck, TypeTraitsError_storeLoad, TypeTraitsError_checkCast,
   TypeTraitsOptional_Error_keepsError,
   C7_error_round_trip (TypeTraitsOptional TypeTraitsError) TypeTraitsError
     TypeTraitsError_storeCheck TypeTraitsError_storeLoad TypeTraitsError_checkCast
     TypeTraitsOptional_Error_keepsError testError⟩

/-! ## C8: storing is transparent -/

/-- C8 (as stated, refuted): the stored slot does not read back as a plain `T`
equal to `v` for every `T`-value `v`. With the success type
`Optional<Optional<int>>` and `v` the present value holding an absent
`Optional<int>`, `Ok(v)` is built and the slot produced by `CopyToAnyView` is the
`None` slot, the slot the codec of `T` produces for `v`, but it reads back as
the absent value, which is not `v`. -/
theorem C8_counterexample :
    Expected.Ok TypeTraitsOptionalOptionalInt TypeTraitsError someNone
        = Except.ok noneOptionalOptionalInt ∧
      TypeTraitsExpected.CopyToAnyView TypeTraitsOptionalOptionalInt TypeTraitsError
          noneOptionalOptionalInt
        = TypeTraitsOptionalOptionalInt.MoveToAny someNone ∧
      Any.as TypeTraitsOptionalOptionalInt
          (TypeTraitsExpected.CopyToAnyView TypeTraitsOptionalOptionalInt TypeTraitsError
            noneOptionalOptionalInt)
        = some none ∧
      (none : Option (Option CInt)) ≠ someNone :=
  ⟨rfl, rfl, rfl, by decide⟩

/-- C8 (amended): storing is transparent: for every `T`-value `v`,
`Expected<T>::Ok(v)` is built and the slot produced by `CopyToAnyView` of it is
the slot that the codec of `T` produces for `v`, so it passes the strict check
of `T`, and it reads back as the plain `T` value `v` whenever the extraction by
`T` returns `v` from the slot the codec of `T` stores it as; for every `Error`
`e`, `Expected<T>::Err(e)` is built and the slot produced by `CopyToAnyView` of
it is the slot that the codec of `Error` produces for `e`, so it passes the
strict check of `Error`. Each codec is assumed to accept, in its strict check,
the slot it stored (`StoreCheck`); the codec of `T` is assumed to store again
as the same slot what it extracts from a slot it stored (`StoreStable`) and to
store back unchanged an `Error` slot that its strict check accepts
(`KeepsError`, which holds of every `T` disjoint from `Error`); the codec of
`Error` is assumed to extract the error it stored (`StoreLoad`). -/
theorem C8_store_transparent {Slot α : Type} (T : TypeTraits Slot α)
    (E : TypeTraits Slot Error) (hT : T.StoreCheck) (hTs : T.StoreStable)
    (hE : E.StoreCheck) (hEl : E.StoreLoad) (hk : T.KeepsError E) :
    (∀ v : α,
        Expected.Ok T E v = Except.ok { data_ := T.MoveToAny v } ∧
          TypeTraitsExpected.CopyToAnyView T E { data_ := T.MoveToAny v } = T.MoveToAny v ∧
          T.CheckAnyStrict (TypeTraitsExpected.CopyToAnyView T E { data_ := T.MoveToAny v })
            = true ∧
          (T.CopyFromAnyViewAfterCheck (T.MoveToAny v) = v →
            Any.as T (TypeTraitsExpected.CopyToAnyView T E { data_ := T.MoveToAny v })
              = some v)) ∧
      (∀ e : Error,
        Expected.Err T E e = Except.ok { data_ := E.MoveToAny e } ∧
          TypeTraitsExpected.CopyToAnyView T E { data_ := E.MoveToAny e } = E.MoveToAny e ∧
          E.CheckAnyStrict (TypeTraitsExpected.CopyToAnyView T E { data_ := E.MoveToAny e })
            = true) := by
  constructor
  · intro v
    have hstoreT : TypeTraitsExpected.CopyToAnyView T E { data_ := T.MoveToAny v }
        = T.MoveToAny v := by
      simp [TypeTraitsExpected.CopyToAnyView, hT v, hTs v]
    refine ⟨Expected.ofAny_of_check T E _ (Or.inl (hT v)), hstoreT, ?_, ?_⟩
    · rw [hstoreT]; exact hT v
    · intro hl
      rw [hstoreT]
      simp [Any.as, hT v, hl]
  · intro e
    have hstoreE : TypeTraitsExpected.CopyToAnyView T E { data_ := E.MoveToAny e }
        = E.MoveToAny e := by
      cases h : T.CheckAnyStrict (E.MoveToAny e)
      · simp [TypeTraitsExpected.CopyToAnyView, h, hEl e]
      · simp [TypeTraitsExpected.CopyToAnyView, h, hk _ h (hE e)]
    refine ⟨Expected.ofAny_of_check T E _ (Or.inr (hE e)), hstoreE, ?_⟩
    rw [hstoreE]
    exact hE e

/-- C8 witness: the slots of `Expected<int>::Ok(42)` and of `Expected<int>::Err(e)`;
with the success type `Optional<Optional<int>>`, the slot of `Ok(v)` for `v` the
present value holding an absent `Optional<int>` is the slot the codec produces
for `v`. -/
theorem C8_store_transparent_witness :
    TypeTraitsInt.StoreCheck ∧ TypeTraitsInt.StoreStable ∧
      TypeTraitsError.StoreCheck ∧ TypeTraitsError.StoreLoad ∧
      TypeTraitsInt.KeepsError TypeTraitsError ∧
      (Expected.Ok TypeTraitsInt TypeTraitsError int42
          = Except.ok { data_ := TypeTraitsInt.MoveToAny int42 } ∧
        TypeTraitsExpected.CopyToAnyView TypeTraitsInt TypeTraitsError
            { data_ := TypeTraitsInt.MoveToAny int42 }
          = TypeTraitsInt.MoveToAny int42 ∧
        TypeTraitsInt.CheckAnyStrict
            (TypeTraitsExpected.CopyToAnyView TypeTraitsInt TypeTraitsError
              { data_ := TypeTraitsInt.MoveToAny int42 })
          = true ∧
        (TypeTraitsInt.CopyFromAnyViewAfterCheck (TypeTraitsInt.MoveToAny int42) = int42 →
          Any.as TypeTraitsInt
              (TypeTraitsExpected.CopyToAnyView TypeTraitsInt TypeTraitsError
                { data_ := TypeTraitsInt.MoveToAny int42 })
            = some int42)) ∧
      TypeTraitsInt.CopyFromAnyViewAfterCheck (TypeTraitsInt.MoveToAny int42) = int42 ∧
      (Expected.Err TypeTraitsInt TypeTraitsError testError
          = Except.ok { data_ := TypeTraitsError.MoveToAny testError } ∧
        TypeTraitsExpected.CopyToAnyView TypeTraitsInt TypeTraitsError
            { data_ := TypeTraitsError.MoveToAny testError }
          = TypeTraitsError.MoveToAny testError ∧
        TypeTraitsError.CheckAnyStrict
            (TypeTraitsExpected.CopyToAnyView TypeTraitsInt TypeTraitsError
              { data_ := TypeTraitsError.MoveToAny testError })
          = true) ∧
      TypeTraitsExpected.CopyToAnyView TypeTraitsOptionalOptionalInt TypeTraitsError
          { data_ := TypeTraitsOptionalOptionalInt.MoveToAny someNone }
        = TypeTraitsOptionalOptionalInt.MoveToAny someNone :=
  ⟨TypeTraitsInt_storeCheck, TypeTraitsInt_storeStable, TypeTraitsError_storeCheck,
   TypeTraitsError_storeLoad, TypeTraitsInt_keepsError,
   (C8_store_transparent TypeTraitsInt TypeTraitsError TypeTraitsInt_storeCheck
      TypeTraitsInt_storeStable TypeTraitsError_storeCheck TypeTraitsError_storeLoad
      TypeTraitsInt_keepsError).1 int42,
   TypeTraitsInt_storeLoad int42,
   (C8_store_transparent TypeTraitsInt TypeTraitsError TypeTraitsInt_storeCheck
      TypeTraitsInt_storeStable TypeTraitsError_storeCheck TypeTraitsError_storeLoad
      TypeTraitsInt_keepsError).2 testError,
   ((C8_store_transparent TypeTraitsOptionalOptionalInt TypeTraitsError
      TypeTraitsOptionalOptionalInt_storeCheck TypeTraitsOptionalOptionalInt_storeStable
      TypeTraitsError_storeCheck TypeTraitsError_storeLoad
      TypeTraitsOptionalOptionalInt_keepsError).1 someNone).2.1⟩

/-! ## C9: recognition -/

/-- C9: recognition is the OR of the two branch checks and accepts everything
that was stored: for every slot `s`, `TypeTraits<Expected<T>>::CheckAnyStrict(s)`
equals `TypeTraits<T>::CheckAnyStrict(s) || TypeTraits<Error>::CheckAnyStrict(s)`,
and for every container `c` the slot produced by `CopyToAnyView(c)` and the slot
produced by `MoveToAny(c)` are recognized. Each codec is assumed to accept, in
its strict check, the slot it stored (`StoreCheck`). -/
theorem C9_recognize {Slot α : Type} (T : TypeTraits Slot α) (E : TypeTraits Slot Error)
    (hT : T.StoreCheck) (hE : E.StoreCheck) (s : Slot) (c : Expected Slot α) :
    TypeTraitsExpected.CheckAnyStrict T E s = (T.CheckAnyStrict s || E.CheckAnyStrict s) ∧
      TypeTraitsExpected.CheckAnyStrict T E (TypeTraitsExpected.CopyToAnyView T E c) = true ∧
      TypeTraitsExpected.CheckAnyStrict T E (TypeTraitsExpected.MoveToAny T E c) = true := by
  refine ⟨rfl, ?_, ?_⟩
  · unfold TypeTraitsExpected.CopyToAnyView TypeTraitsExpected.CheckAnyStrict
    split
    · simp [hT _]
    · simp [hE _]
  · unfold TypeTraitsExpected.MoveToAny TypeTraitsExpected.CheckAnyStrict
    split
    · simp [hT _]
    · simp [hE _]

/-- C9 witness: a string slot is not recognized as `Expected<int>`, the stored
container `Expected<int>::Err(e)` is. -/
theorem C9_recognize_witness :
    TypeTraitsInt.StoreCheck ∧ TypeTraitsError.StoreCheck ∧
      (TypeTraitsExpected.CheckAnyStrict TypeTraitsInt TypeTraitsError
            (TVMFFIAny.kTVMFFIStr "hello")
          = (TypeTraitsInt.CheckAnyStrict (TVMFFIAny.kTVMFFIStr "hello")
              || TypeTraitsError.CheckAnyStrict (TVMFFIAny.kTVMFFIStr "hello")) ∧
        TypeTraitsExpected.CheckAnyStrict TypeTraitsInt TypeTraitsError
            (TypeTraitsExpected.CopyToAnyView TypeTraitsInt TypeTraitsError errInt) = true ∧
        TypeTraitsExpected.CheckAnyStrict TypeTraitsInt TypeTraitsError
            (TypeTraitsExpected.MoveToAny TypeTraitsInt TypeTraitsError errInt) = true) :=
  ⟨TypeTraitsInt_storeCheck, TypeTraitsError_storeCheck,
   C9_recognize TypeTraitsInt TypeTraitsError TypeTraitsInt_storeCheck
     TypeTraitsError_storeCheck (TVMFFIAny.kTVMFFIStr "hello") errInt⟩

/-! ## C10: load re-wraps the branch that is present -/

/-- C10: load re-wraps the branch that is present: for every slot `s`
recognized by `TypeTraits<Expected<T>>::CheckAnyStrict`, when `s` strictly
matches `T` the load `CopyFromAnyViewAfterCheck(s)` is `Expected<T>::Ok(x)` with
`x` the extraction of `s` by `T`, and otherwise it is `Expected<T>::Err(e)` with
`e` the extraction of `s` by `Error`; in both cases the load returns a container
and does not raise. The same holds of `MoveFromAnyAfterCheck`. Each codec is
assumed to accept, in its strict check, the slot it stored (`StoreCheck`). -/
theorem C10_load {Slot α : Type} (T : TypeTraits Slot α) (E : TypeTraits Slot Error)
    (hT : T.StoreCheck) (hE : E.StoreCheck) (s : Slot)
    (hs : TypeTraitsExpected.CheckAnyStrict T E s = true) :
    (T.CheckAnyStrict s = true →
        TypeTraitsExpected.CopyFromAnyViewAfterCheck T E s
            = Expected.Ok T E (T.CopyFromAnyViewAfterCheck s) ∧
          TypeTraitsExpected.CopyFromAnyViewAfterCheck T E s
            = Except.ok { data_ := T.MoveToAny (T.CopyFromAnyViewAfterCheck s) } ∧
          TypeTraitsExpected.MoveFromAnyAfterCheck T E s
            = Expected.Ok T E (T.MoveFromAnyAfterCheck s) ∧
          TypeTraitsExpected.MoveFromAnyAfterCheck T E s
            = Except.ok { data_ := T.MoveToAny (T.MoveFromAnyAfterCheck s) }) ∧
      (T.CheckAnyStrict s = false →
        E.CheckAnyStrict s = true ∧
          TypeTraitsExpected.CopyFromAnyViewAfterCheck T E s
            = Expected.Err T E (E.CopyFromAnyViewAfterCheck s) ∧
          TypeTraitsExpected.CopyFromAnyViewAfterCheck T E s
            = Except.ok { data_ := E.MoveToAny (E.CopyFromAnyViewAfterCheck s) } ∧
          TypeTraitsExpected.MoveFromAnyAfterCheck T E s
            = Expected.Err T E (E.MoveFromAnyAfterCheck s) ∧
          TypeTraitsExpected.MoveFromAnyAfterCheck T E s
            = Except.ok { data_ := E.MoveToAny (E.MoveFromAnyAfterCheck s) }) := by
  constructor
  · intro h
    have hc : TypeTraitsExpected.CopyFromAnyViewAfterCheck T E s
        = Expected.Ok T E (T.CopyFromAnyViewAfterCheck s) := by
      simp [TypeTraitsExpected.CopyFromAnyViewAfterCheck, h]
    have hm : TypeTraitsExpected.MoveFromAnyAfterCheck T E s
        = Expected.Ok T E (T.MoveFromAnyAfterCheck s) := by
      simp [TypeTraitsExpected.MoveFromAnyAfterCheck, h]
    refine ⟨hc, ?_, hm, ?_⟩
    · rw [hc]; exact Expected.ofAny_of_check T E _ (Or.inl (hT _))
    · rw [hm]; exact Expected.ofAny_of_check T E _ (Or.inl (hT _))
  · intro h
    have hc : TypeTraitsExpected.CopyFromAnyViewAfterCheck T E s
        = Expected.Err T E (E.CopyFromAnyViewAfterCheck s) := by
      simp [TypeTraitsExpected.CopyFromAnyViewAfterCheck, h]
    have hm : TypeTraitsExpected.MoveFromAnyAfterCheck T E s
        = Expected.Err T E (E.MoveFromAnyAfterCheck s) := by
      simp [TypeTraitsExpected.MoveFromAnyAfterCheck, h]
    refine ⟨?_, hc, ?_, hm, ?_⟩
    · simpa [TypeTraitsExpected.CheckAnyStrict, h] using hs
    · rw [hc]; exact Expected.ofAny_of_check T E _ (Or.inr (hE _))
    · rw [hm]; exact Expected.ofAny_of_check T E _ (Or.inr (hE _))

/-- C10 witness: loading the `Error` slot of the tests as `Expected<int>`. -/
theorem C10_load_witness :
    TypeTraitsInt.StoreCheck ∧ TypeTraitsError.StoreCheck ∧
      TypeTraitsExpected.CheckAnyStrict TypeTraitsInt TypeTraitsError
        (TVMFFIAny.kTVMFFIError testError) = true ∧
      TypeTraitsInt.CheckAnyStrict (TVMFFIAny.kTVMFFIError testError) = false ∧
      TypeTraitsExpected.CopyFromAnyViewAfterCheck TypeTraitsInt TypeTraitsError
          (TVMFFIAny.kTVMFFIError testError)
        = Expected.Err TypeTraitsInt TypeTraitsError testError ∧
      TypeTraitsExpected.CopyFromAnyViewAfterCheck TypeTraitsInt TypeTraitsError
          (TVMFFIAny.kTVMFFIError testError)
        = Except.ok errInt :=
  ⟨TypeTraitsInt_storeCheck, TypeTraitsError_storeCheck, rfl, rfl,
   ((C10_load TypeTraitsInt TypeTraitsError TypeTraitsInt_storeCheck
      TypeTraitsError_storeCheck (TVMFFIAny.kTVMFFIError testError) rfl).2 rfl).2.1,
   ((C10_load TypeTraitsInt TypeTraitsError TypeTraitsInt_storeCheck
      TypeTraitsError_storeCheck (TVMFFIAny.kTVMFFIError testError) rfl).2 rfl).2.2.1⟩

/-! ## C11, C12: best-effort conversion -/

/-- C11 (as stated, refuted): with the success type `Optional<Error>` and the
slot `s` of an `Error` `e`, the conversion of `s` by `T` yields
`v = Optional<Error>(e)` and the conversion to `Expected<T>` is present with
`is_ok()` true, but `value()` of the container raises `RuntimeError` instead of
returning `v`. -/
theorem C11_counterexample :
    (TypeTraitsOptional TypeTraitsError).TryCastFromAnyView (TVMFFIAny.kTVMFFIError testError)
        = some (some testError) ∧
      TypeTraitsExpected.TryCastFromAnyView (TypeTraitsOptional TypeTraitsError) TypeTraitsError
          (TVMFFIAny.kTVMFFIError testError)
        = Except.ok (some errOptionalError) ∧
      Expected.is_ok (TypeTraitsOptional TypeTraitsError) errOptionalError = true ∧
      Expected.value (TypeTraitsOptional TypeTraitsError) TypeTraitsError errOptionalError
        = Except.error (Thrown.RuntimeError "Bad expected access: contains error") :=
  ⟨rfl, rfl, rfl, rfl⟩

/-- C11 (amended): best-effort conversion tries `T` before `Error`: for every
slot `s`, if the conversion of `s` by `T` yields `v` then
`TypeTraits<Expected<T>>::TryCastFromAnyView(s)` is present and is the container
`Ok(v)`, with `is_ok()` true whether or not the conversion of `s` by `Error`
would also succeed, and with `value() == v` when the slot that `T` stores `v` as
is rejected by the strict check of `Error`; for every slot `s`, if the
conversion by `T` is absent and the conversion by `Error` yields `e`, the result
is present and is the container `Err(e)`, with `is_err()` true and
`error() == e`. The codec of `T` is assumed to accept, in its strict check, the
slot it stored (`StoreCheck`), to convert a slot that passes the strict check as
the strict extraction does (`CheckCast`) and to extract again a value its
conversion yields (`CastLoad`); the codec of `Error` is assumed to keep
`StoreCheck`, `StoreLoad` and `CheckCast`. -/
theorem C11_try_cast_order {Slot α : Type} (T : TypeTraits Slot α)
    (E : TypeTraits Slot Error) (hT : T.StoreCheck) (hTc : T.CheckCast) (hTl : T.CastLoad)
    (hE : E.StoreCheck) (hEl : E.StoreLoad) (hEc : E.CheckCast) :
    (∀ (s : Slot) (v : α), T.TryCastFromAnyView s = some v →
        TypeTraitsExpected.TryCastFromAnyView T E s
            = Except.ok (some { data_ := T.MoveToAny v }) ∧
          Expected.is_ok T ({ data_ := T.MoveToAny v } : Expected Slot α) = true ∧
          (E.CheckAnyStrict (T.MoveToAny v) = false →
            Expected.value T E { data_ := T.MoveToAny v } = Except.ok v)) ∧
      (∀ (s : Slot) (e : Error), T.TryCastFromAnyView s = none →
        E.TryCastFromAnyView s = some e →
        TypeTraitsExpected.TryCastFromAnyView T E s
            = Except.ok (some { data_ := E.MoveToAny e }) ∧
          Expected.is_err E ({ data_ := E.MoveToAny e } : Expected Slot α) = true ∧
          Expected.error E ({ data_ := E.MoveToAny e } : Expected Slot α) = Except.ok e) := by
  constructor
  · intro s v h₁
    have hOk : Expected.Ok T E v = Except.ok { data_ := T.MoveToAny v } :=
      Expected.ofAny_of_check T E _ (Or.inl (hT v))
    refine ⟨?_, ?_, ?_⟩
    · simp [TypeTraitsExpected.TryCastFromAnyView, h₁, hOk, Except.map]
    · rw [Expected.is_ok_eq]; exact hT v
    · intro hv
      have hise : Expected.is_err E ({ data_ := T.MoveToAny v } : Expected Slot α)
          = false := by
        rw [Expected.is_err_eq]; exact hv
      simp [Expected.value, hise, Any.cast, hTc _ (hT v), hTl s v h₁]
  · intro s e h₂ h₃
    have hErr : Expected.Err T E e = Except.ok { data_ := E.MoveToAny e } :=
      Expected.ofAny_of_check T E _ (Or.inr (hE e))
    have hie : Expected.is_err E ({ data_ := E.MoveToAny e } : Expected Slot α) = true := by
      rw [Expected.is_err_eq]; exact hE e
    refine ⟨?_, hie, ?_⟩
    · simp [TypeTraitsExpected.TryCastFromAnyView, h₂, h₃, hErr, Except.map]
    · simp [Expected.error, hie, Any.cast, hEc _ (hE e), hEl e]

/-- C11 witness: the slot of an `Error` `e` read as `Expected<Optional<Error>>`
converts by `T` and by `Error`, and the result is the container
`Ok(Optional<Error>(e))` with `is_ok()` true: `T` wins the tie. A boolean slot
read as `Expected<int>` is `Ok(1)` with `value() == 1`, and the slot of `e` read
as `Expected<int>` is `Err(e)`. -/
theorem C11_try_cast_order_witness :
    (TypeTraitsOptional TypeTraitsError).StoreCheck ∧
      (TypeTraitsOptional TypeTraitsError).CheckCast ∧
      (TypeTraitsOptional TypeTraitsError).CastLoad ∧
      TypeTraitsInt.StoreCheck ∧ TypeTraitsInt.CheckCast ∧ TypeTraitsInt.CastLoad ∧
      TypeTraitsError.StoreCheck ∧ TypeTraitsError.StoreLoad ∧ TypeTraitsError.CheckCast ∧
      (TypeTraitsOptional TypeTraitsError).TryCastFromAnyView
          (TVMFFIAny.kTVMFFIError testError) = some (some testError) ∧
      TypeTraitsError.TryCastFromAnyView (TVMFFIAny.kTVMFFIError testError) = some testError ∧
      TypeTraitsExpected.TryCastFromAnyView (TypeTraitsOptional TypeTraitsError)
          TypeTraitsError (TVMFFIAny.kTVMFFIError testError)
        = Except.ok
            (some { data_ := (TypeTraitsOptional TypeTraitsError).MoveToAny (some testError) }) ∧
      Expected.is_ok (TypeTraitsOptional TypeTraitsError)
          ({ data_ := (TypeTraitsOptional TypeTraitsError).MoveToAny (some testError) }
            : Expected TVMFFIAny (Option Error)) = true ∧
      TypeTraitsInt.TryCastFromAnyView (TVMFFIAny.kTVMFFIBool true) = some int1 ∧
      TypeTraitsExpected.TryCastFromAnyView TypeTraitsInt TypeTraitsError
          (TVMFFIAny.kTVMFFIBool true)
        = Except.ok (some { data_ := TypeTraitsInt.MoveToAny int1 }) ∧
      Expected.value TypeTraitsInt TypeTraitsError { data_ := TypeTraitsInt.MoveToAny int1 }
        = Except.ok int1 ∧
      TypeTraitsInt.TryCastFromAnyView (TVMFFIAny.kTVMFFIError testError) = none ∧
      TypeTraitsExpected.TryCastFromAnyView TypeTraitsInt TypeTraitsError
          (TVMFFIAny.kTVMFFIError testError)
        = Except.ok (some { data_ := TypeTraitsError.MoveToAny testError }) :=
  ⟨TypeTraitsOptional_Error_storeCheck, TypeTraitsOptional_Error_checkCast,
   TypeTraitsOptional_Error_castLoad,
   TypeTraitsInt_storeCheck, TypeTraitsInt_checkCast, TypeTraitsInt_castLoad,
   TypeTraitsError_storeCheck, TypeTraitsError_storeLoad, TypeTraitsError_checkCast,
   rfl, rfl,
   ((C11_try_cast_order (TypeTraitsOptional TypeTraitsError) TypeTraitsError
      TypeTraitsOptional_Error_storeCheck TypeTraitsOptional_Error_checkCast
      TypeTraitsOptional_Error_castLoad TypeTraitsError_storeCheck TypeTraitsError_storeLoad
      TypeTraitsError_checkCast).1 (TVMFFIAny.kTVMFFIError testError) (some testError) rfl).1,
   ((C11_try_cast_order (TypeTraitsOptional TypeTraitsError) TypeTraitsError
      TypeTraitsOptional_Error_storeCheck TypeTraitsOptional_Error_checkCast
      TypeTraitsOptional_Error_castLoad TypeTraitsError_storeCheck TypeTraitsError_storeLoad
      TypeTraitsError_checkCast).1 (TVMFFIAny.kTVMFFIError testError) (some testError) rfl).2.1,
   rfl,
   ((C11_try_cast_order TypeTraitsInt TypeTraitsError TypeTraitsInt_storeCheck
      TypeTraitsInt_checkCast TypeTraitsInt_castLoad TypeTraitsError_storeCheck
      TypeTraitsError_storeLoad TypeTraitsError_checkCast).1
      (TVMFFIAny.kTVMFFIBool true) int1 rfl).1,
   ((C11_try_cast_order TypeTraitsInt TypeTraitsError TypeTraitsInt_storeCheck
      TypeTraitsInt_checkCast TypeTraitsInt_castLoad TypeTraitsError_storeCheck
      TypeTraitsError_storeLoad TypeTraitsError_checkCast).1
      (TVMFFIAny.kTVMFFIBool true) int1 rfl).2.2 rfl,
   rfl,
   ((C11_try_cast_order TypeTraitsInt TypeTraitsError TypeTraitsInt_storeCheck
      TypeTraitsInt_checkCast TypeTraitsInt_castLoad TypeTraitsError_storeCheck
      TypeTraitsError_storeLoad TypeTraitsError_checkCast).2
      (TVMFFIAny.kTVMFFIError testError) testError rfl rfl).1⟩

/-- C12: an incompatible conversion is a negative result, not a failure: for
every slot `s`, `TypeTraits<Expected<T>>::TryCastFromAnyView(s)` returns and does
not raise, and what it returns is absent if and only if both the conversion of
`s` by `T` and the conversion of `s` by `Error` are absent; in particular the
string slot `"hello"` converted to `Expected<int>` gives absent. Each codec is
assumed to accept, in its strict check, the slot it stored (`StoreCheck`). -/
theorem C12_try_cast_absent {Slot α : Type} (T : TypeTraits Slot α)
    (E : TypeTraits Slot Error) (hT : T.StoreCheck) (hE : E.StoreCheck) (s : Slot) :
    (∃ r : Option (Expected Slot α),
        TypeTraitsExpected.TryCastFromAnyView T E s = Except.ok r) ∧
      (TypeTraitsExpected.TryCastFromAnyView T E s = Except.ok none ↔
        T.TryCastFromAnyView s = none ∧ E.TryCastFromAnyView s = none) ∧
      TypeTraitsExpected.TryCastFromAnyView TypeTraitsInt TypeTraitsError helloSlot
        = Except.ok none := by
  refine ⟨?_, ?_, rfl⟩
  · cases h₁ : T.TryCastFromAnyView s with
    | some v =>
      have hOk : Expected.Ok T E v = Except.ok { data_ := T.MoveToAny v } :=
        Expected.ofAny_of_check T E _ (Or.inl (hT v))
      exact ⟨some { data_ := T.MoveToAny v },
        by simp [TypeTraitsExpected.TryCastFromAnyView, h₁, hOk, Except.map]⟩
    | none =>
      cases h₂ : E.TryCastFromAnyView s with
      | some e =>
        have hErr : Expected.Err T E e = Except.ok { data_ := E.MoveToAny e } :=
          Expected.ofAny_of_check T E _ (Or.inr (hE e))
        exact ⟨some { data_ := E.MoveToAny e },
          by simp [TypeTraitsExpected.TryCastFromAnyView, h₁, h₂, hErr, Except.map]⟩
      | none =>
        exact ⟨none, by simp [TypeTraitsExpected.TryCastFromAnyView, h₁, h₂]⟩
  · cases h₁ : T.TryCastFromAnyView s with
    | some v =>
      have hOk : Expected.Ok T E v = Except.ok { data_ := T.MoveToAny v } :=
        Expected.ofAny_of_check T E _ (Or.inl (hT v))
      simp [TypeTraitsExpected.TryCastFromAnyView, h₁, hOk, Except.map]
    | none =>
      cases h₂ : E.TryCastFromAnyView s with
      | some e =>
        have hErr : Expected.Err T E e = Except.ok { data_ := E.MoveToAny e } :=
          Expected.ofAny_of_check T E _ (Or.inr (hE e))
        simp [TypeTraitsExpected.TryCastFromAnyView, h₁, h₂, hErr, Except.map]
      | none =>
        simp [TypeTraitsExpected.TryCastFromAnyView, h₁, h₂]

/-- C12 witness: the test `TryCastIncompatible`, a string slot read as `Expected<int>`. -/
theorem C12_try_cast_absent_witness :
    TypeTraitsInt.StoreCheck ∧ TypeTraitsError.StoreCheck ∧
      (∃ r : Option (Expected TVMFFIAny CInt),
        TypeTraitsExpected.TryCastFromAnyView TypeTraitsInt TypeTraitsError helloSlot
          = Except.ok r) ∧
      (TypeTraitsExpected.TryCastFromAnyView TypeTraitsInt TypeTraitsError helloSlot
          = Except.ok none ↔
        TypeTraitsInt.TryCastFromAnyView helloSlot = none ∧
          TypeTraitsError.TryCastFromAnyView helloSlot = none) ∧
      TypeTraitsExpected.TryCastFromAnyView TypeTraitsInt TypeTraitsError helloSlot
        = Except.ok none :=
  ⟨TypeTraitsInt_storeCheck, TypeTraitsError_storeCheck,
   C12_try_cast_absent TypeTraitsInt TypeTraitsError TypeTraitsInt_storeCheck
     TypeTraitsError_storeCheck helloSlot⟩

/-! ## C13: a container passes through the result slot unchanged -/

/-- C14: nesting an optional success type causes no branch confusion: for every
`Optional<int>` value `o`, the absent value included, `c = Expected<Optional<int>>::Ok(o)`
is built and satisfies `c.is_ok() == true`, `c.is_err() == false` and
`c.value() == o`; storing `c` into a slot with `CopyToAnyView` and loading the
slot back as `Expected<Optional<int>>` with `CopyFromAnyViewAfterCheck` yields
`c` again, a success-branch container whose value is `o`. -/
theorem C14_nested_optional (o : Option CInt) :
    Expected.Ok (TypeTraitsOptional TypeTraitsInt) TypeTraitsError o
        = Except.ok { data_ := (TypeTraitsOptional TypeTraitsInt).MoveToAny o } ∧
      Expected.is_ok (TypeTraitsOptional TypeTraitsInt)
          ({ data_ := (TypeTraitsOptional TypeTraitsInt).MoveToAny o }
            : Expected TVMFFIAny (Option CInt)) = true ∧
      Expected.is_err TypeTraitsError
          ({ data_ := (TypeTraitsOptional TypeTraitsInt).MoveToAny o }
            : Expected TVMFFIAny (Option CInt)) = false ∧
      Expected.value (TypeTraitsOptional TypeTraitsInt) TypeTraitsError
          { data_ := (TypeTraitsOptional TypeTraitsInt).MoveToAny o } = Except.ok o ∧
      TypeTraitsExpected.CopyFromAnyViewAfterCheck (TypeTraitsOptional TypeTraitsInt)
          TypeTraitsError
          (TypeTraitsExpected.CopyToAnyView (TypeTraitsOptional TypeTraitsInt) TypeTraitsError
            { data_ := (TypeTraitsOptional TypeTraitsInt).MoveToAny o })
        = Except.ok { data_ := (TypeTraitsOptional TypeTraitsInt).MoveToAny o } := by
  have hc := TypeTraitsOptional_Int_storeCheck o
  have hl := TypeTraitsOptional_Int_storeLoad o
  have hn := TypeTraitsOptional_Int_notError o
  have hOk : Expected.Ok (TypeTraitsOptional TypeTraitsInt) TypeTraitsError o
      = Except.ok { data_ := (TypeTraitsOptional TypeTraitsInt).MoveToAny o } :=
    Expected.ofAny_of_check _ _ _ (Or.inl hc)
  have hise : Expected.is_err TypeTraitsError
      ({ data_ := (TypeTraitsOptional TypeTraitsInt).MoveToAny o }
        : Expected TVMFFIAny (Option CInt)) = false := by
    rw [Expected.is_err_eq]; exact hn
  have hstore : TypeTraitsExpected.CopyToAnyView (TypeTraitsOptional TypeTraitsInt)
      TypeTraitsError { data_ := (TypeTraitsOptional TypeTraitsInt).MoveToAny o }
      = (TypeTraitsOptional TypeTraitsInt).MoveToAny o := by
    simp [TypeTraitsExpected.CopyToAnyView, hc, hl]
  refine ⟨hOk, ?_, hise, ?_, ?_⟩
  · rw [Expected.is_ok_eq]; exact hc
  · simp [Expected.value, hise, Any.cast, TypeTraitsOptional_Int_checkCast _ hc, hl]
  · rw [hstore]
    simp [TypeTraitsExpected.CopyFromAnyViewAfterCheck, hc, hl, hOk]

/-! ## C15: introspection strings -/

/-- C15: the introspection strings wrap those of `T`: for every success type `T`,
`TypeTraits<Expected<T>>::TypeStr()` is `"Expected<"` followed by the `TypeStr()`
of `T` followed by `">"`, and `TypeTraits<Expected<T>>::TypeSchema()` is
`{"type":"Expected","args":[` followed by the schema string of `T` followed by
`]}`; for `int` they are `Expected<int>` and
`{"type":"Expected","args":[{"type":"int"}]}`. -/
theorem C15_introspection {Slot α : Type} (T : TypeTraits Slot α) :
    TypeTraitsExpected.TypeStr T = "Expected<" ++ T.TypeStr ++ ">" ∧
      TypeTraitsExpected.TypeSchema T
        = "\x7b\"type\":\"Expected\",\"args\":[" ++ T.TypeSchema ++ "]\x7d" ∧
      TypeTraitsExpected.TypeStr TypeTraitsInt = "Expected<int>" ∧
      TypeTraitsExpected.TypeSchema TypeTraitsInt
        = "\x7b\"type\":\"Expected\",\"args\":[\x7b\"type\":\"int\"\x7d]\x7d" :=
  ⟨rfl, rfl, by decide, by decide⟩

/-! ## C16: value() and value_or() -/

/-- C16 (as stated, refuted): with the success type `Optional<Error>`, the
container `c = Err(e)` is built, `c.value()` raises, but `c.value_or(d)` with the
absent default `d` returns the stored error as a present value, not `d`. -/
theorem C16_counterexample :
    Expected.Err (TypeTraitsOptional TypeTraitsError) TypeTraitsError testError
        = Except.ok errOptionalError ∧
      Expected.value (TypeTraitsOptional TypeTraitsError) TypeTraitsError errOptionalError
        = Except.error (Thrown.RuntimeError "Bad expected access: contains error") ∧
      Expected.value_or (TypeTraitsOptional TypeTraitsError) errOptionalError none
        = Except.ok (some testError) ∧
      (Except.ok (some testError) : Except Thrown (Option Error)) ≠ Except.ok none :=
  ⟨rfl, rfl, rfl, by simp⟩

/-- C16 (amended): `value()` and `value_or()` agree on which branch a container
is in: for every obtainable container `c`, default `d` and value `x`, if
`c.value()` returns `x` then `c.value_or(d) == x`; and, when the best-effort
conversion of `T` converts a slot that passes the strict check as the strict
extraction does (`CheckCast`), for every obtainable container `c` on which
`is_ok()` and `is_err()` are not both true and every default `d`, if
`c.value()` raises then `c.value_or(d) == d`. -/
theorem C16_value_agrees_with_value_or {Slot α : Type} (T : TypeTraits Slot α)
    (E : TypeTraits Slot Error) :
    (∀ (c : Expected Slot α) (d x : α), Expected.Obtainable T E c →
        Expected.value T E c = Except.ok x → Expected.value_or T c d = Except.ok x) ∧
      (T.CheckCast →
        ∀ (c : Expected Slot α) (d : α) (t : Thrown), Expected.Obtainable T E c →
          ¬ (Expected.is_ok T c = true ∧ Expected.is_err E c = true) →
          Expected.value T E c = Except.error t → Expected.value_or T c d = Except.ok d) := by
  constructor
  · intro c d x hc h₁
    cases hE : Expected.is_err E c
    · have hT : Expected.is_ok T c = true := by
        rw [Expected.is_ok_eq]
        rw [Expected.is_err_eq] at hE
        rcases hc.check with h | h
        · exact h
        · simp [hE] at h
      simp only [Expected.value, hE] at h₁
      simpa [Expected.value_or, hT] using h₁
    · simp [Expected.value, hE] at h₁
  · intro hcc c d t hc hx h₂
    cases hE : Expected.is_err E c
    · have hT : T.CheckAnyStrict c.data_ = true := by
        rw [Expected.is_err_eq] at hE
        rcases hc.check with h | h
        · exact h
        · simp [hE] at h
      simp [Expected.value, hE, Any.cast, hcc _ hT] at h₂
    · cases hO : Expected.is_ok T c
      · simp [Expected.value_or, hO]
      · exact absurd ⟨hO, hE⟩ hx

/-- C16 witness: `Expected<int>::Ok(42)` and `Expected<int>::Err(e)` with the
default 99; with the success type `Optional<Error>`, the container `Ok(nullopt)`
whose `value()` returns the absent value. -/
theorem C16_value_agrees_with_value_or_witness :
    Expected.Obtainable TypeTraitsInt TypeTraitsError okInt42 ∧
      Expected.value TypeTraitsInt TypeTraitsError okInt42 = Except.ok int42 ∧
      Expected.value_or TypeTraitsInt okInt42 int99 = Except.ok int42 ∧
      TypeTraitsInt.CheckCast ∧
      Expected.Obtainable TypeTraitsInt TypeTraitsError errInt ∧
      ¬ (Expected.is_ok TypeTraitsInt errInt = true ∧
          Expected.is_err TypeTraitsError errInt = true) ∧
      Expected.value TypeTraitsInt TypeTraitsError errInt
        = Except.error (Thrown.RuntimeError "Bad expected access: contains error") ∧
      Expected.value_or TypeTraitsInt errInt int99 = Except.ok int99 ∧
      Expected.Obtainable (TypeTraitsOptional TypeTraitsError) TypeTraitsError
        noneOptionalError ∧
      Expected.value (TypeTraitsOptional TypeTraitsError) TypeTraitsError noneOptionalError
        = Except.ok none ∧
      Expected.value_or (TypeTraitsOptional TypeTraitsError) noneOptionalError
          (some testError)
        = Except.ok none :=
  ⟨Expected.Obtainable.Ok int42 _ rfl, rfl,
   (C16_value_agrees_with_value_or TypeTraitsInt TypeTraitsError).1 okInt42 int99 int42
     (Expected.Obtainable.Ok int42 _ rfl) rfl,
   TypeTraitsInt_checkCast,
   Expected.Obtainable.Err testError _ rfl, by decide, rfl,
   (C16_value_agrees_with_value_or TypeTraitsInt TypeTraitsError).2 TypeTraitsInt_checkCast
     errInt int99 (Thrown.RuntimeError "Bad expected access: contains error")
     (Expected.Obtainable.Err testError _ rfl) (by decide) rfl,
   Expected.Obtainable.Ok none _ rfl, rfl,
   (C16_value_agrees_with_value_or (TypeTraitsOptional TypeTraitsError) TypeTraitsError).1
     noneOptionalError (some testError) none (Expected.Obtainable.Ok none _ rfl) rfl⟩

/-! ## C17: strict and best-effort reading -/

/-- C17: strict and best-effort reading agree on recognized slots: for every
slot `s` with `TypeTraits<Expected<T>>::CheckAnyStrict(s) == true`, the strict
load `CopyFromAnyViewAfterCheck(s)` returns a container, `TryCastFromAnyView(s)`
is present and is that same container, and `Any::cast<Expected<T>>` returns that
same container. Both codecs are assumed to keep their contract (`StoreCheck`,
`CheckCast`), and the best-effort conversion of `T` not to convert an `Error`
slot that the strict check of `T` rejects (`CastRejectsError`). -/
theorem C17_strict_and_try_cast_agree {Slot α : Type} (T : TypeTraits Slot α)
    (E : TypeTraits Slot Error) (hT : T.StoreCheck) (hTc : T.CheckCast)
    (hE : E.StoreCheck) (hEc : E.CheckCast) (hr : T.CastRejectsError E)
    (s : Slot) (hs : TypeTraitsExpected.CheckAnyStrict T E s = true) :
    (∃ c : Expected Slot α,
        TypeTraitsExpected.CopyFromAnyViewAfterCheck T E s = Except.ok c) ∧
      TypeTraitsExpected.TryCastFromAnyView T E s
        = (TypeTraitsExpected.CopyFromAnyViewAfterCheck T E s).map some ∧
      Any.castExpected T E s = TypeTraitsExpected.CopyFromAnyViewAfterCheck T E s := by
  cases h : T.CheckAnyStrict s
  · have hEs : E.CheckAnyStrict s = true := by
      simpa [TypeTraitsExpected.CheckAnyStrict, h] using hs
    have hErr : Expected.Err T E (E.CopyFromAnyViewAfterCheck s)
        = Except.ok { data_ := E.MoveToAny (E.CopyFromAnyViewAfterCheck s) } :=
      Expected.ofAny_of_check T E _ (Or.inr (hE _))
    have hload : TypeTraitsExpected.CopyFromAnyViewAfterCheck T E s
        = Except.ok { data_ := E.MoveToAny (E.CopyFromAnyViewAfterCheck s) } := by
      simp [TypeTraitsExpected.CopyFromAnyViewAfterCheck, h, hErr]
    have htry : TypeTraitsExpected.TryCastFromAnyView T E s
        = Except.ok (some { data_ := E.MoveToAny (E.CopyFromAnyViewAfterCheck s) }) := by
      simp [TypeTraitsExpected.TryCastFromAnyView, hr s hEs h, hEc s hEs, hErr, Except.map]
    refine ⟨⟨_, hload⟩, ?_, ?_⟩
    · rw [htry, hload]; rfl
    · simp [Any.castExpected, htry, hload]
  · have hOk : Expected.Ok T E (T.CopyFromAnyViewAfterCheck s)
        = Except.ok { data_ := T.MoveToAny (T.CopyFromAnyViewAfterCheck s) } :=
      Expected.ofAny_of_check T E _ (Or.inl (hT _))
    have hload : TypeTraitsExpected.CopyFromAnyViewAfterCheck T E s
        = Except.ok { data_ := T.MoveToAny (T.CopyFromAnyViewAfterCheck s) } := by
      simp [TypeTraitsExpected.CopyFromAnyViewAfterCheck, h, hOk]
    have htry : TypeTraitsExpected.TryCastFromAnyView T E s
        = Except.ok (some { data_ := T.MoveToAny (T.CopyFromAnyViewAfterCheck s) }) := by
      simp [TypeTraitsExpected.TryCastFromAnyView, hTc s h, hOk, Except.map]
    refine ⟨⟨_, hload⟩, ?_, ?_⟩
    · rw [htry, hload]; rfl
    · simp [Any.castExpected, htry, hload]

/-- C17 witness: the integer slot 42 read as `Expected<int>` (test
`TypeTraitsRoundtrip`). -/
theorem C17_strict_and_try_cast_agree_witness :
    TypeTraitsInt.StoreCheck ∧ TypeTraitsInt.CheckCast ∧ TypeTraitsError.StoreCheck ∧
      TypeTraitsError.CheckCast ∧ TypeTraitsInt.CastRejectsError TypeTraitsError ∧
      TypeTraitsExpected.CheckAnyStrict TypeTraitsInt TypeTraitsError
        (TVMFFIAny.kTVMFFIInt 42) = true ∧
      TypeTraitsExpected.TryCastFromAnyView TypeTraitsInt TypeTraitsError
          (TVMFFIAny.kTVMFFIInt 42)
        = (TypeTraitsExpected.CopyFromAnyViewAfterCheck TypeTraitsInt TypeTraitsError
            (TVMFFIAny.kTVMFFIInt 42)).map some ∧
      Any.castExpected TypeTraitsInt TypeTraitsError (TVMFFIAny.kTVMFFIInt 42)
        = TypeTraitsExpected.CopyFromAnyViewAfterCheck TypeTraitsInt TypeTraitsError
            (TVMFFIAny.kTVMFFIInt 42) :=
  ⟨TypeTraitsInt_storeCheck, TypeTraitsInt_checkCast, TypeTraitsError_storeCheck,
   TypeTraitsError_checkCast, TypeTraitsInt_castRejectsError, rfl,
   (C17_strict_and_try_cast_agree TypeTraitsInt TypeTraitsError TypeTraitsInt_storeCheck
      TypeTraitsInt_checkCast TypeTraitsError_storeCheck TypeTraitsError_checkCast
      TypeTraitsInt_castRejectsError (TVMFFIAny.kTVMFFIInt 42) rfl).2⟩

/-! ## C18: load then store -/

/-- C18 (as stated, refuted): the integer slot holding `2^40` is recognized as
`Expected<int>`, it loads as the container holding the integer slot `0` (the
extraction narrows to `int`), and storing that container back produces the
integer slot `0`, which is not the slot that was loaded. -/
theorem C18_counterexample :
    TypeTraitsExpected.CheckAnyStrict TypeTraitsInt TypeTraitsError wideIntSlot = true ∧
      TypeTraitsExpected.CopyFromAnyViewAfterCheck TypeTraitsInt TypeTraitsError wideIntSlot
        = Except.ok { data_ := TVMFFIAny.kTVMFFIInt 0 } ∧
      TypeTraitsExpected.CopyToAnyView TypeTraitsInt TypeTraitsError
          { data_ := TVMFFIAny.kTVMFFIInt 0 }
        = TVMFFIAny.kTVMFFIInt 0 ∧
      TVMFFIAny.kTVMFFIInt 0 ≠ wideIntSlot :=
  ⟨rfl, rfl, rfl, by decide⟩

/-- C18 (amended): load then store re-encodes the slot with the codec of the
branch that is present: for every slot `s` with
`TypeTraits<Expected<T>>::CheckAnyStrict(s) == true`, `CopyFromAnyViewAfterCheck(s)`
returns a container and storing it back with `CopyToAnyView` produces the slot
that `TypeTraits<T>::MoveToAny` produces from the extraction of `s` by `T` when
`s` strictly matches `T`, and otherwise the slot that
`TypeTraits<Error>::MoveToAny` produces from the extraction of `s` by `Error`;
so the result is equal to `s` exactly when that codec's own extract-then-store
returns `s`. Both codecs are assumed to keep their contract (`StoreCheck`,
`StoreLoad`), and the codec of `T` to store back unchanged an `Error` slot that
its strict check accepts (`KeepsError`). -/
theorem C18_load_then_store {Slot α : Type} (T : TypeTraits Slot α)
    (E : TypeTraits Slot Error) (hT : T.StoreCheck) (hTl : T.StoreLoad)
    (hE : E.StoreCheck) (hEl : E.StoreLoad) (hk : T.KeepsError E)
    (s : Slot) (hs : TypeTraitsExpected.CheckAnyStrict T E s = true) :
    TypeTraitsExpected.CopyFromAnyViewAfterCheck T E s
        = Except.ok { data_ := TypeTraitsExpected.reencode T E s } ∧
      TypeTraitsExpected.CopyToAnyView T E { data_ := TypeTraitsExpected.reencode T E s }
        = TypeTraitsExpected.reencode T E s ∧
      (TypeTraitsExpected.CopyToAnyView T E { data_ := TypeTraitsExpected.reencode T E s } = s
        ↔ TypeTraitsExpected.reencode T E s = s) := by
  have hstore : TypeTraitsExpected.CopyToAnyView T E
      { data_ := TypeTraitsExpected.reencode T E s } = TypeTraitsExpected.reencode T E s := by
    cases h : T.CheckAnyStrict s
    · have hre : TypeTraitsExpected.reencode T E s
          = E.MoveToAny (E.CopyFromAnyViewAfterCheck s) := by
        simp [TypeTraitsExpected.reencode, h]
      rw [hre]
      cases h' : T.CheckAnyStrict (E.MoveToAny (E.CopyFromAnyViewAfterCheck s))
      · simp [TypeTraitsExpected.CopyToAnyView, h', hEl _]
      · simp [TypeTraitsExpected.CopyToAnyView, h', hk _ h' (hE _)]
    · have hre : TypeTraitsExpected.reencode T E s
          = T.MoveToAny (T.CopyFromAnyViewAfterCheck s) := by
        simp [TypeTraitsExpected.reencode, h]
      rw [hre]
      simp [TypeTraitsExpected.CopyToAnyView, hT _, hTl _]
  refine ⟨?_, hstore, ?_⟩
  · cases h : T.CheckAnyStrict s
    · have hEs : E.CheckAnyStrict s = true := by
        simpa [TypeTraitsExpected.CheckAnyStrict, h] using hs
      simp only [TypeTraitsExpected.CopyFromAnyViewAfterCheck, TypeTraitsExpected.reencode, h]
      exact Expected.ofAny_of_check T E _ (Or.inr (hE _))
    · simp only [TypeTraitsExpected.CopyFromAnyViewAfterCheck, TypeTraitsExpected.reencode, h]
      exact Expected.ofAny_of_check T E _ (Or.inl (hT _))
  · rw [hstore]

/-- C18 witness: the integer slot 42 read as `Expected<int>` and stored back. -/
theorem C18_load_then_store_witness :
    TypeTraitsInt.StoreCheck ∧ TypeTraitsInt.StoreLoad ∧ TypeTraitsError.StoreCheck ∧
      TypeTraitsError.StoreLoad ∧ TypeTraitsInt.KeepsError TypeTraitsError ∧
      TypeTraitsExpected.CheckAnyStrict TypeTraitsInt TypeTraitsError
        (TVMFFIAny.kTVMFFIInt 42) = true ∧
      TypeTraitsExpected.reencode TypeTraitsInt TypeTraitsError (TVMFFIAny.kTVMFFIInt 42)
        = TVMFFIAny.kTVMFFIInt 42 ∧
      TypeTraitsExpected.CopyFromAnyViewAfterCheck TypeTraitsInt TypeTraitsError
          (TVMFFIAny.kTVMFFIInt 42)
        = Except.ok { data_ := (TypeTraitsExpected.reencode TypeTraitsInt TypeTraitsError
            (TVMFFIAny.kTVMFFIInt 42)) } ∧
      TypeTraitsExpected.CopyToAnyView TypeTraitsInt TypeTraitsError
          { data_ := (TypeTraitsExpected.reencode TypeTraitsInt TypeTraitsError
            (TVMFFIAny.kTVMFFIInt 42)) }
        = TVMFFIAny.kTVMFFIInt 42 :=
  ⟨TypeTraitsInt_storeCheck, TypeTraitsInt_storeLoad, TypeTraitsError_storeCheck,
   TypeTraitsError_storeLoad, TypeTraitsInt_keepsError, rfl, rfl,
   (C18_load_then_store TypeTraitsInt TypeTraitsError TypeTraitsInt_storeCheck
      TypeTraitsInt_storeLoad TypeTraitsError_storeCheck TypeTraitsError_storeLoad
      TypeTraitsInt_keepsError (TVMFFIAny.kTVMFFIInt 42) rfl).1,
   (C18_load_then_store TypeTraitsInt TypeTraitsError TypeTraitsInt_storeCheck
      TypeTraitsInt_storeLoad TypeTraitsError_storeCheck TypeTraitsError_storeLoad
      TypeTraitsInt_keepsError (TVMFFIAny.kTVMFFIInt 42) rfl).2.2.mpr rfl⟩

/-! ## C19: error() -/

/-- C19: `error()` is checked, not undefined: for every container `c`,
`c.error()` returns a value if and only if `c.is_err()` is true, and it then
returns the stored `Error`, the extraction of the slot by `Error`; when
`c.is_err()` is false it raises at the check "Expected does not contain an
error", so it never returns an `Error` built from a success payload. The
best-effort conversion of `Error` is assumed to agree with the strict path
(`CheckCast`). -/
theorem C19_error_is_checked {Slot α : Type} (E : TypeTraits Slot Error)
    (hEc : E.CheckCast) (c : Expected Slot α) :
    ((∃ e : Error, Expected.error E c = Except.ok e) ↔ Expected.is_err E c = true) ∧
      (Expected.is_err E c = true →
        Expected.error E c = Except.ok (E.CopyFromAnyViewAfterCheck c.data_)) ∧
      (Expected.is_err E c = false →
        Expected.error E c
          = Except.error (Thrown.InternalError "Expected does not contain an error")) := by
  have hyes : Expected.is_err E c = true →
      Expected.error E c = Except.ok (E.CopyFromAnyViewAfterCheck c.data_) := by
    intro h
    have hchk : E.CheckAnyStrict c.data_ = true := by rw [← Expected.is_err_eq]; exact h
    simp [Expected.error, h, Any.cast, hEc _ hchk]
  have hno : Expected.is_err E c = false →
      Expected.error E c
        = Except.error (Thrown.InternalError "Expected does not contain an error") := by
    intro h
    simp [Expected.error, h]
  refine ⟨⟨?_, fun h => ⟨_, hyes h⟩⟩, hyes, hno⟩
  rintro ⟨e, he⟩
  cases h : Expected.is_err E c
  · rw [hno h] at he
    cases he
  · rfl

/-- C19 witness: `error()` on `Expected<int>::Ok(42)` raises, on
`Expected<int>::Err(e)` it returns `e`. -/
theorem C19_error_is_checked_witness :
    TypeTraitsError.CheckCast ∧
      Expected.error TypeTraitsError okInt42
        = Except.error (Thrown.InternalError "Expected does not contain an error") ∧
      Expected.error TypeTraitsError errInt = Except.ok testError :=
  ⟨TypeTraitsError_checkCast,
   (C19_error_is_checked TypeTraitsError TypeTraitsError_checkCast okInt42).2.2 rfl,
   (C19_error_is_checked TypeTraitsError TypeTraitsError_checkCast errInt).2.1 rfl⟩

end tvm.ffi
